import Mathlib

/-!
A verification development for the `mock_api` module of the brocode
repository (`src/mock_api.py`).

The module fabricates HTTP-like responses without network I/O.  We embed it
shallowly:

* Python's JSON-serializable values (`None`, `bool`, `int`/`float`, `str`,
  `list`, `dict` with string keys) become the inductive type `Json`.  A
  number is carried as its literal text (the characters Python's `repr`
  would print for it), which is exact and lets serialization be modelled
  faithfully; non-finite floats (`nan`, `inf`) are outside the model.
* `json.dumps` (default options: `ensure_ascii=True`, separators `", "`
  and `": "`) becomes `dumps`; `json.loads` becomes `loads`.
* The random draws made inside the Python functions (`random.uniform` for
  the latency, `random.randint` for the request id and the status code)
  and the wall-clock reading `time.time()` are nondeterministic inputs, so
  they appear as explicit parameters (`delay`, `reqId`, `timeLit`,
  `statusDraw`).  `timeLit` is the decimal literal `repr` would print for
  the float returned by `time.time()`.
* `time.sleep` is an observable effect; each call returns the list of
  effects it performed alongside its result.
* `raise ValueError`/`raise TypeError` become an `Except` error result.
-/

namespace MockApi

/-- A JSON-serializable Python value.  Numbers are carried as their literal
text, exactly the characters `repr` prints for the Python `int` or `float`. -/
inductive Json where
  | null
  | bool (b : Bool)
  | num (lit : String)
  | str (s : String)
  | arr (elems : List Json)
  | obj (members : List (String × Json))

/-- Decimal digit test, `'0'` through `'9'`. -/
def isDigit (c : Char) : Bool := decide (48 ≤ c.toNat ∧ c.toNat ≤ 57)

/-- Lowercase hexadecimal digit for `n < 16`, as Python's `%04x` format uses. -/
def hexChar (n : Nat) : Char :=
  if n < 10 then Char.ofNat (48 + n) else Char.ofNat (87 + n)

/-- Four lowercase hex digits of `n < 0x10000`, most significant first. -/
def hexSeq (n : Nat) : List Char :=
  [hexChar (n / 4096 % 16), hexChar (n / 256 % 16), hexChar (n / 16 % 16), hexChar (n % 16)]

/-- Decimal digit characters of a natural number, as Python's `repr` prints it. -/
def natChars (n : Nat) : List Char :=
  if _h : n < 10 then [Char.ofNat (48 + n)]
  else natChars (n / 10) ++ [Char.ofNat (48 + n % 10)]
termination_by n
decreasing_by omega

/-- Decimal representation of a Python `int`: optional minus sign, then digits. -/
def intChars (i : Int) : List Char :=
  if i < 0 then '-' :: natChars i.natAbs else natChars i.natAbs

/-- Escape one character the way `json.dumps` does with its default
`ensure_ascii=True`: printable ASCII other than `"` and `\` passes through,
the short two-character escapes cover the usual control characters, every
other character below `0x10000` becomes `\uXXXX`, and astral characters
become a UTF-16 surrogate pair of `\u` escapes. -/
def escSeq (c : Char) : List Char :=
  if c = '"' then ['\\', '"']
  else if c = '\\' then ['\\', '\\']
  else if c = Char.ofNat 8 then ['\\', 'b']
  else if c = Char.ofNat 9 then ['\\', 't']
  else if c = Char.ofNat 10 then ['\\', 'n']
  else if c = Char.ofNat 12 then ['\\', 'f']
  else if c = Char.ofNat 13 then ['\\', 'r']
  else if 32 ≤ c.toNat ∧ c.toNat ≤ 126 then [c]
  else if c.toNat < 65536 then '\\' :: 'u' :: hexSeq c.toNat
  else
    '\\' :: 'u' :: hexSeq (55296 + (c.toNat - 65536) / 1024) ++
    '\\' :: 'u' :: hexSeq (56320 + (c.toNat - 65536) % 1024)

/-- Escape every character of a string body. -/
def escAll : List Char → List Char
  | [] => []
  | c :: cs => escSeq c ++ escAll cs

/-- Serialization of a JSON string: quoted, with the body escaped. -/
def serStr (s : String) : List Char := '"' :: (escAll s.data ++ ['"'])

/-- Characters of the literal `null`. -/
def litNullChars : List Char := ['n', 'u', 'l', 'l']

/-- Characters of the literal `true`. -/
def litTrueChars : List Char := ['t', 'r', 'u', 'e']

/-- Characters of the literal `false`. -/
def litFalseChars : List Char := ['f', 'a', 'l', 's', 'e']

mutual

/-- Characters `json.dumps` produces for a value, with its default separators
`", "` between items and `": "` after a key. -/
def ser : Json → List Char
  | .null => litNullChars
  | .bool true => litTrueChars
  | .bool false => litFalseChars
  | .num lit => lit.data
  | .str s => serStr s
  | .arr [] => ['[', ']']
  | .arr (v :: vs) => '[' :: (ser v ++ serItems vs ++ [']'])
  | .obj [] => ['\x7b', '\x7d']
  | .obj ((k, v) :: ms) =>
      '\x7b' :: (serStr k ++ ':' :: ' ' :: ser v ++ serMembers ms ++ ['\x7d'])

/-- Remaining array items, each preceded by the `", "` separator. -/
def serItems : List Json → List Char
  | [] => []
  | v :: vs => ',' :: ' ' :: (ser v ++ serItems vs)

/-- Remaining object members, each preceded by the `", "` separator. -/
def serMembers : List (String × Json) → List Char
  | [] => []
  | (k, v) :: ms => ',' :: ' ' :: (serStr k ++ ':' :: ' ' :: ser v ++ serMembers ms)

end

/-- The model of Python's `json.dumps` with its default keyword arguments. -/
def dumps (j : Json) : String := String.mk (ser j)

/-- JSON whitespace, which `json.loads` skips between tokens: space, tab,
newline, carriage return. -/
def jsonWsChar (c : Char) : Bool := decide (c = ' ' ∨ c = '\t' ∨ c = '\n' ∨ c = '\r')

/-- Drop leading JSON whitespace. -/
def skipWs : List Char → List Char
  | c :: cs => if jsonWsChar c then skipWs cs else c :: cs
  | [] => []

/-- Longest leading run of decimal digits, and the remainder. -/
def takeDigits : List Char → List Char × List Char
  | [] => ([], [])
  | c :: cs =>
    if isDigit c then
      let p := takeDigits cs
      (c :: p.1, p.2)
    else ([], c :: cs)

/-- Integer part of a JSON number, per the scanner's regular expression
`(0|[1-9]\d*)`: a lone `0`, or a nonzero digit followed by any digits. -/
def deserIntPart : List Char → Option (List Char × List Char)
  | [] => none
  | c :: cs =>
    if c = '0' then some (['0'], cs)
    else if 49 ≤ c.toNat ∧ c.toNat ≤ 57 then
      let p := takeDigits cs
      some (c :: p.1, p.2)
    else none

/-- Optional fraction part, per `(\.\d+)?`: consumed only when a digit
follows the dot. -/
def deserFrac (l : List Char) : List Char × List Char :=
  match l with
  | c :: d :: cs =>
    if c = '.' ∧ isDigit d then
      let p := takeDigits cs
      (c :: d :: p.1, p.2)
    else ([], l)
  | _ => ([], l)

/-- Optional exponent part, per `([eE][-+]?\d+)?`: consumed only when at
least one digit follows the marker and optional sign. -/
def deserExp (l : List Char) : List Char × List Char :=
  match l with
  | c :: cs =>
    if c = 'e' ∨ c = 'E' then
      match cs with
      | '+' :: d :: cs2 =>
        if isDigit d then
          let p := takeDigits cs2
          (c :: '+' :: d :: p.1, p.2)
        else ([], l)
      | '-' :: d :: cs2 =>
        if isDigit d then
          let p := takeDigits cs2
          (c :: '-' :: d :: p.1, p.2)
        else ([], l)
      | d :: cs2 =>
        if isDigit d then
          let p := takeDigits cs2
          (c :: d :: p.1, p.2)
        else ([], l)
      | [] => ([], l)
    else ([], l)
  | [] => ([], l)

/-- Leading minus sign of a number literal, split off if present. -/
def splitSign : List Char → List Char × List Char
  | '-' :: cs => (['-'], cs)
  | cs => ([], cs)

/-- An unsigned number literal: integer part, optional fraction, optional
exponent, kept verbatim. -/
def deserNumCore (cs : List Char) : Option (List Char × List Char) :=
  match deserIntPart cs with
  | some (ip, r1) =>
    let f := deserFrac r1
    let e := deserExp f.2
    some (ip ++ f.1 ++ e.1, e.2)
  | none => none

/-- A whole JSON number literal: optional minus, integer part, optional
fraction, optional exponent.  The literal's characters are kept verbatim,
matching the model's exact number representation.  (`NaN`/`Infinity`
constants are outside the model.) -/
def deserNumLit (l : List Char) : Option (List Char × List Char) :=
  let s := splitSign l
  match deserNumCore s.2 with
  | some (lit, r) => some (s.1 ++ lit, r)
  | none => none

/-- Value of one hexadecimal digit (either case), as `int(•, 16)` accepts. -/
def hexVal (c : Char) : Option Nat :=
  if 48 ≤ c.toNat ∧ c.toNat ≤ 57 then some (c.toNat - 48)
  else if 97 ≤ c.toNat ∧ c.toNat ≤ 102 then some (c.toNat - 87)
  else if 65 ≤ c.toNat ∧ c.toNat ≤ 70 then some (c.toNat - 55)
  else none

/-- Value of a four-hex-digit escape body. -/
def hexQuad (a b c d : Char) : Option Nat :=
  match hexVal a, hexVal b, hexVal c, hexVal d with
  | some x, some y, some z, some w => some (((x * 16 + y) * 16 + z) * 16 + w)
  | _, _, _, _ => none

/-- Decode one short backslash escape. -/
def escDecode (c : Char) : Option Char :=
  if c = '"' then some '"'
  else if c = '\\' then some '\\'
  else if c = '/' then some '/'
  else if c = 'b' then some (Char.ofNat 8)
  else if c = 'f' then some (Char.ofNat 12)
  else if c = 'n' then some (Char.ofNat 10)
  else if c = 'r' then some (Char.ofNat 13)
  else if c = 't' then some (Char.ofNat 9)
  else none

/-- String body after the opening quote, as the scanner reads it in strict
mode: plain characters must be `0x20` or above, short escapes and `\uXXXX`
escapes are decoded, and a high surrogate followed by a low one combines
into one character.  A lone surrogate would produce a Python string our
`Char`-based model cannot hold, so the model rejects it; serialized output
never contains one. -/
def deserStrBody : List Char → Option (List Char × List Char)
  | [] => none
  | '"' :: rest => some ([], rest)
  | '\\' :: 'u' :: a :: b :: c :: d :: rest =>
    (match hexQuad a b c d with
    | none => none
    | some n =>
      if 55296 ≤ n ∧ n ≤ 56319 then
        match rest with
        | '\\' :: 'u' :: a2 :: b2 :: c2 :: d2 :: rest2 =>
          (match hexQuad a2 b2 c2 d2 with
          | none => none
          | some m =>
            if 56320 ≤ m ∧ m ≤ 57343 then
              match deserStrBody rest2 with
              | some (s, r) =>
                some (Char.ofNat (65536 + (n - 55296) * 1024 + (m - 56320)) :: s, r)
              | none => none
            else none)
        | _ => none
      else if 56320 ≤ n ∧ n ≤ 57343 then none
      else
        match deserStrBody rest with
        | some (s, r) => some (Char.ofNat n :: s, r)
        | none => none)
  | '\\' :: e :: rest =>
    (match escDecode e with
    | none => none
    | some ch =>
      match deserStrBody rest with
      | some (s, r) => some (ch :: s, r)
      | none => none)
  | c :: rest =>
    if 32 ≤ c.toNat then
      match deserStrBody rest with
      | some (s, r) => some (c :: s, r)
      | none => none
    else none

mutual

/-- One JSON value, fuelled: literals, strings, arrays, objects, numbers.
Mirrors the scanner's `scan_once`, which expects the value to start at the
current position (callers skip whitespace). -/
def deserVal : Nat → List Char → Option (Json × List Char)
  | 0, _ => none
  | fuel + 1, cs =>
    match cs with
    | 'n' :: 'u' :: 'l' :: 'l' :: r => some (.null, r)
    | 't' :: 'r' :: 'u' :: 'e' :: r => some (.bool true, r)
    | 'f' :: 'a' :: 'l' :: 's' :: 'e' :: r => some (.bool false, r)
    | '"' :: r =>
      (match deserStrBody r with
      | some (s, r2) => some (.str (String.mk s), r2)
      | none => none)
    | '[' :: r =>
      (match skipWs r with
      | ']' :: r2 => some (.arr [], r2)
      | r2 =>
        match deserItems fuel r2 with
        | some (vs, r3) => some (.arr vs, r3)
        | none => none)
    | '\x7b' :: r =>
      (match skipWs r with
      | '\x7d' :: r2 => some (.obj [], r2)
      | r2 =>
        match deserMembers fuel r2 with
        | some (ms, r3) => some (.obj ms, r3)
        | none => none)
    | _ =>
      match deserNumLit cs with
      | some (lit, r) => some (.num (String.mk lit), r)
      | none => none

/-- One or more comma-separated array items, up to the closing bracket. -/
def deserItems : Nat → List Char → Option (List Json × List Char)
  | 0, _ => none
  | fuel + 1, cs =>
    match deserVal fuel (skipWs cs) with
    | some (v, r) =>
      (match skipWs r with
      | ',' :: r2 =>
        (match deserItems fuel r2 with
        | some (vs, r3) => some (v :: vs, r3)
        | none => none)
      | ']' :: r2 => some ([v], r2)
      | _ => none)
    | none => none

/-- One or more key-value members, up to the closing brace. -/
def deserMembers : Nat → List Char → Option (List (String × Json) × List Char)
  | 0, _ => none
  | fuel + 1, cs =>
    match skipWs cs with
    | '"' :: r =>
      (match deserStrBody r with
      | some (k, r1) =>
        (match skipWs r1 with
        | ':' :: r2 =>
          (match deserVal fuel (skipWs r2) with
          | some (v, r3) =>
            (match skipWs r3 with
            | ',' :: r4 =>
              (match deserMembers fuel r4 with
              | some (ms, r5) => some ((String.mk k, v) :: ms, r5)
              | none => none)
            | '\x7d' :: r4 => some ([(String.mk k, v)], r4)
            | _ => none)
          | none => none)
        | _ => none)
      | none => none)
    | _ => none

end

/-- The model of Python's `json.loads`: skip leading whitespace, read one
value, and require only whitespace to remain. -/
def loads (s : String) : Option Json :=
  match deserVal (s.data.length + 1) (skipWs s.data) with
  | some (v, r) => if (skipWs r).isEmpty then some v else none
  | none => none

/-- Shape of the integer part Python's `repr` prints for an `int`'s
magnitude and the scanner's regular expression accepts: a lone `0`, or a
nonzero digit followed by digits. -/
def IntPartShape (ip : List Char) : Prop :=
  ip = ['0'] ∨ ∃ c t, ip = c :: t ∧ 49 ≤ c.toNat ∧ c.toNat ≤ 57 ∧ t.all isDigit = true

/-- Shape of an optional fraction part: absent, or a dot followed by at
least one digit. -/
def FracShape (fp : List Char) : Prop :=
  fp = [] ∨ ∃ d t, fp = '.' :: d :: t ∧ isDigit d = true ∧ t.all isDigit = true

/-- Shape of an optional exponent part: absent, or a marker, an optional
sign, and at least one digit. -/
def ExpShape (ep : List Char) : Prop :=
  ep = [] ∨ ∃ e sg d t, ep = e :: (sg ++ d :: t) ∧ (e = 'e' ∨ e = 'E') ∧
    (sg = [] ∨ sg = ['+'] ∨ sg = ['-']) ∧ isDigit d = true ∧ t.all isDigit = true

/-- A canonical finite number literal: optional minus sign, integer part,
optional fraction, optional exponent.  Every literal Python's `repr`
prints for a finite `int` or `float` has this shape; `inf` and `nan` do
not. -/
def NumShape (l : List Char) : Prop :=
  ∃ sg ip fp ep, l = sg ++ ip ++ fp ++ ep ∧ (sg = [] ∨ sg = ['-']) ∧
    IntPartShape ip ∧ FracShape fp ∧ ExpShape ep

mutual

/-- Well-formedness of a modelled Python value: every number literal in it
has the canonical finite shape.  Every JSON-serializable Python value made
of finite numbers satisfies this. -/
def JsonWF : Json → Prop
  | .null => True
  | .bool _ => True
  | .num lit => NumShape lit.data
  | .str _ => True
  | .arr vs => ItemsWF vs
  | .obj ms => MembersWF ms

/-- Well-formedness of a list of array items. -/
def ItemsWF : List Json → Prop
  | [] => True
  | v :: vs => JsonWF v ∧ ItemsWF vs

/-- Well-formedness of a list of object members. -/
def MembersWF : List (String × Json) → Prop
  | [] => True
  | (_, v) :: ms => JsonWF v ∧ MembersWF ms

end

/-- A remainder that cannot extend a digit run: empty or headed by a
non-digit. -/
def noDigitHead : List Char → Prop
  | [] => True
  | c :: _ => isDigit c = false

/-- A remainder that cannot extend a number literal: empty, or headed by a
character that is no digit and none of `.`, `e`, `E`.  Everything that can
follow a serialized value (`,`, `]`, a closing brace, end of input)
qualifies. -/
def numStop : List Char → Prop
  | [] => True
  | c :: _ => isDigit c = false ∧ c ≠ '.' ∧ c ≠ 'e' ∧ c ≠ 'E'

/-- Subscript access `payload[key]` on a decoded object. -/
def getItem (j : Json) (key : String) : Option Json :=
  match j with
  | .obj ms => ms.lookup key
  | _ => none

/-- Rename the top-level payload key `"params"` to `"body"`, the only
difference between the GET and POST success payloads. -/
def renameParams : Json → Json
  | .obj ms => .obj (ms.map (fun kv => if kv.1 = "params" then ("body", kv.2) else kv))
  | j => j

/-- Python's `str.isspace` test, which `str.strip` removes from both ends:
the ASCII whitespace and separator controls plus the Unicode space
separators. -/
def pyIsSpace (c : Char) : Bool :=
  decide ((9 ≤ c.toNat ∧ c.toNat ≤ 13) ∨ (28 ≤ c.toNat ∧ c.toNat ≤ 31) ∨
    c.toNat = 32 ∨ c.toNat = 133 ∨ c.toNat = 160 ∨ c.toNat = 5760 ∨
    (8192 ≤ c.toNat ∧ c.toNat ≤ 8202) ∨ c.toNat = 8232 ∨ c.toNat = 8233 ∨
    c.toNat = 8239 ∨ c.toNat = 8287 ∨ c.toNat = 12288)

/-- Python's `str.strip()`: drop whitespace from both ends. -/
def pyStrip (s : String) : String :=
  String.mk (((s.data.dropWhile pyIsSpace).reverse.dropWhile pyIsSpace).reverse)

/-- Characters of a numeric literal before any exponent marker. -/
def mantissaChars (l : List Char) : List Char :=
  l.takeWhile (fun c => !(decide (c = 'e' ∨ c = 'E')))

/-- Whether a numeric literal denotes zero: every digit of its mantissa is
`'0'` (the exponent cannot make a zero mantissa nonzero or vice versa). -/
def numIsZero (lit : String) : Bool :=
  (mantissaChars lit.data).all (fun c => !isDigit c || decide (c = '0'))

/-- Python truthiness for the modelled values: `None`, `False`, zero, and
empty containers are falsy. -/
def pyTruthy : Json → Bool
  | .null => false
  | .bool b => b
  | .num lit => !numIsZero lit
  | .str s => !s.data.isEmpty
  | .arr vs => !vs.isEmpty
  | .obj ms => !ms.isEmpty

/-- Python's `x or y`: `x` when truthy, else `y`. -/
def pyOr (v default : Json) : Json := if pyTruthy v then v else default

/-- The `isinstance(x, str)` test. -/
def isStr : Json → Bool
  | .str _ => true
  | _ => false

/-- The `isinstance(x, dict)` test. -/
def isDict : Json → Bool
  | .obj _ => true
  | _ => false

/-- The `x is None` test. -/
def isNone : Json → Bool
  | .null => true
  | _ => false

/-- Mirror of the `ResponseData` frozen dataclass. -/
structure ResponseData where
  status_code : Int
  json_data : Json
  headers : List (String × String)
  raw_text : String

/-- The exceptions the module raises: `ValueError` for a bad URL,
`TypeError` for a wrongly-typed optional mapping argument. -/
inductive ApiError where
  | valueError (msg : String)
  | typeError (msg : String)
  deriving Repr, DecidableEq

/-- Observable side effects of a call; the only one is `time.sleep`, whose
duration (in seconds) is the value `random.uniform(0.05, 0.15)` drew. -/
inductive Effect where
  | sleep (seconds : Rat)
  deriving Repr, DecidableEq

/-- Response headers every simulated response carries. -/
def mock_json_headers : List (String × String) := [("Content-Type", "application/json")]

/-- Message of the `ValueError` both functions raise for a bad URL (the
source spells it with a non-breaking hyphen). -/
def urlErrMsg : String := "URL must be a non‑empty string."

/-- Payload built by `_generate_fake_response` (lines 79-86 of
`mock_api.py`): request id, url, `params or {}`, `headers or {}`, and the
`time.time()` reading. -/
def fake_get_payload (url : String) (params headers : Json) (reqId : Nat)
    (timeLit : String) : Json :=
  .obj [("request_id", .str ("req-" ++ String.mk (natChars reqId))),
        ("url", .str url),
        ("params", pyOr params (.obj [])),
        ("headers", pyOr headers (.obj [])),
        ("time", .num timeLit)]

/-- Payload built by `_generate_fake_post_response` (lines 120-127): as for
GET but the mapping argument is stored under `"body"`. -/
def fake_post_payload (url : String) (data headers : Json) (reqId : Nat)
    (timeLit : String) : Json :=
  .obj [("request_id", .str ("req-" ++ String.mk (natChars reqId))),
        ("url", .str url),
        ("body", pyOr data (.obj [])),
        ("headers", pyOr headers (.obj [])),
        ("time", .num timeLit)]

/-- Model of `_generate_fake_response` (lines 58-96): bundle the payload,
draw a status in 200-299 (`statusDraw` is that draw), serialize, and attach
the fixed JSON content-type header. -/
def generate_fake_response (url : String) (params headers : Json) (reqId : Nat)
    (timeLit : String) (statusDraw : Nat) : ResponseData :=
  let fake_payload := fake_get_payload url params headers reqId timeLit
  { status_code := (statusDraw : Int), json_data := fake_payload,
    headers := mock_json_headers, raw_text := dumps fake_payload }

/-- Model of `_generate_fake_post_response` (lines 99-137). -/
def generate_fake_post_response (url : String) (data headers : Json) (reqId : Nat)
    (timeLit : String) (statusDraw : Nat) : ResponseData :=
  let fake_payload := fake_post_payload url data headers reqId timeLit
  { status_code := (statusDraw : Int), json_data := fake_payload,
    headers := mock_json_headers, raw_text := dumps fake_payload }

/-- The error payload both functions build when `simulate_error` is set
(lines 189-193 and 252-256). -/
def error_payload (error_status : Int) : Json :=
  .obj [("error", .str "Simulated error"),
        ("status", .num (String.mk (intChars error_status))),
        ("message", .str "This is a fake error response.")]

/-- The `ResponseData` returned on the `simulate_error` branch (lines
194-199 and 257-262): the supplied status code, the error payload, its
serialization, and the fixed JSON content-type header. -/
def error_response (error_status : Int) : ResponseData :=
  { status_code := error_status, json_data := error_payload error_status,
    headers := mock_json_headers, raw_text := dumps (error_payload error_status) }

/-- Transport a GET response to the corresponding POST response: rename the
payload key and re-serialize.  On payloads without a `"params"` key this is
the identity. -/
def renameResponse (r : ResponseData) : ResponseData :=
  { status_code := r.status_code, json_data := renameParams r.json_data,
    headers := r.headers, raw_text := dumps (renameParams r.json_data) }

/-- Model of `simulate_api_get` (lines 140-201).  Validation happens first:
a non-string or whitespace-only URL raises `ValueError`; a `params` or
`headers` that is neither `None` nor a `dict` raises `TypeError`.  Only
then does the call sleep (the single element of the effect list), after
which it returns either the canned error response or a fresh fake one. -/
def simulate_api_get (url params headers : Json) (simulate_error : Bool)
    (error_status : Int) (delay : Rat) (reqId : Nat) (timeLit : String)
    (statusDraw : Nat) : Except ApiError ResponseData × List Effect :=
  match url with
  | .str s =>
    if (pyStrip s).data.isEmpty then
      (.error (.valueError urlErrMsg), [])
    else if !isNone params && !isDict params then
      (.error (.typeError "params must be a dictionary or None."), [])
    else if !isNone headers && !isDict headers then
      (.error (.typeError "headers must be a dictionary or None."), [])
    else if simulate_error then
      (.ok (error_response error_status), [.sleep delay])
    else
      (.ok (generate_fake_response s params headers reqId timeLit statusDraw),
       [.sleep delay])
  | _ => (.error (.valueError urlErrMsg), [])

/-- Model of `simulate_api_post` (lines 204-264); identical shape, with the
mapping argument called `data` and stored under the payload key `"body"`. -/
def simulate_api_post (url data headers : Json) (simulate_error : Bool)
    (error_status : Int) (delay : Rat) (reqId : Nat) (timeLit : String)
    (statusDraw : Nat) : Except ApiError ResponseData × List Effect :=
  match url with
  | .str s =>
    if (pyStrip s).data.isEmpty then
      (.error (.valueError urlErrMsg), [])
    else if !isNone data && !isDict data then
      (.error (.typeError "data must be a dictionary or None."), [])
    else if !isNone headers && !isDict headers then
      (.error (.typeError "headers must be a dictionary or None."), [])
    else if simulate_error then
      (.ok (error_response error_status), [.sleep delay])
    else
      (.ok (generate_fake_post_response s data headers reqId timeLit statusDraw),
       [.sleep delay])
  | _ => (.error (.valueError urlErrMsg), [])

/-! ### Character-level facts -/

theorem toNat_ofNat_valid (n : Nat) (h : n.isValidChar) : (Char.ofNat n).toNat = n := by
  simp only [Char.ofNat, dif_pos h, Char.ofNatAux, Char.toNat]
  simp [UInt32.toNat, BitVec.toNat_ofNatLt]

theorem char_valid_cases (c : Char) :
    c.toNat < 55296 ∨ (57343 < c.toNat ∧ c.toNat < 1114112) := by
  have h := c.valid
  simp only [UInt32.isValidChar, Nat.isValidChar, Char.toNat] at h ⊢
  omega

theorem hexVal_hexChar : ∀ k, k < 16 → hexVal (hexChar k) = some k := by decide

theorem hexQuad_hexSeq (n : Nat) (h : n < 65536) :
    hexQuad (hexChar (n / 4096 % 16)) (hexChar (n / 256 % 16))
      (hexChar (n / 16 % 16)) (hexChar (n % 16)) = some n := by
  have e1 := hexVal_hexChar (n / 4096 % 16) (Nat.mod_lt _ (by omega))
  have e2 := hexVal_hexChar (n / 256 % 16) (Nat.mod_lt _ (by omega))
  have e3 := hexVal_hexChar (n / 16 % 16) (Nat.mod_lt _ (by omega))
  have e4 := hexVal_hexChar (n % 16) (Nat.mod_lt _ (by omega))
  simp only [hexQuad, e1, e2, e3, e4, Option.some.injEq]
  omega

/-! ### String escaping round-trips -/

theorem deserStrBody_plain (c : Char) (tail : List Char)
    (hq : c ≠ '"') (hb : c ≠ '\\') (hlo : 32 ≤ c.toNat) :
    deserStrBody (c :: tail) =
      match deserStrBody tail with
      | some (s, r) => some (c :: s, r)
      | none => none := by
  rw [deserStrBody.eq_def]
  split
  · rename_i heq; cases heq
  · rename_i heq; cases heq; exact absurd rfl hq
  · rename_i heq; injection heq with h1 _; exact absurd h1 hb
  · rename_i heq; injection heq with h1 _; exact absurd h1 hb
  · rename_i c' rest heq
    injection heq with h1 h2
    subst h1; subst h2
    rw [if_pos hlo]

set_option maxRecDepth 8000 in
theorem deserStrBody_uescape (a1 a2 a3 a4 : Char) (tail : List Char) (n : Nat)
    (e1 : hexQuad a1 a2 a3 a4 = some n)
    (hA : ¬(55296 ≤ n ∧ n ≤ 56319)) (hB : ¬(56320 ≤ n ∧ n ≤ 57343)) :
    deserStrBody ('\\' :: 'u' :: a1 :: a2 :: a3 :: a4 :: tail) =
      match deserStrBody tail with
      | some (s, r) => some (Char.ofNat n :: s, r)
      | none => none := by
  simp only [deserStrBody, e1]
  rw [if_neg hA, if_neg hB]

set_option maxRecDepth 8000 in
theorem deserStrBody_surrogates (a1 a2 a3 a4 a5 a6 a7 a8 : Char) (tail : List Char)
    (n m : Nat) (e1 : hexQuad a1 a2 a3 a4 = some n) (e2 : hexQuad a5 a6 a7 a8 = some m)
    (hn : 55296 ≤ n ∧ n ≤ 56319) (hm : 56320 ≤ m ∧ m ≤ 57343) :
    deserStrBody
        ('\\' :: 'u' :: a1 :: a2 :: a3 :: a4 :: ('\\' :: 'u' :: a5 :: a6 :: a7 :: a8 :: tail)) =
      match deserStrBody tail with
      | some (s, r) => some (Char.ofNat (65536 + (n - 55296) * 1024 + (m - 56320)) :: s, r)
      | none => none := by
  simp only [deserStrBody, e1, e2]
  rw [if_pos hn, if_pos hm]

theorem deserStrBody_escSeq (c : Char) (tail : List Char) :
    deserStrBody (escSeq c ++ tail) =
      match deserStrBody tail with
      | some (s, r) => some (c :: s, r)
      | none => none := by
  by_cases h1 : c = '"'
  · subst h1; simp [escSeq, deserStrBody, escDecode]
  by_cases h2 : c = '\\'
  · subst h2; simp [escSeq, deserStrBody, escDecode]
  by_cases h3 : c = Char.ofNat 8
  · subst h3; simp [escSeq, deserStrBody, escDecode]
  by_cases h4 : c = Char.ofNat 9
  · subst h4; simp [escSeq, deserStrBody, escDecode]
  by_cases h5 : c = Char.ofNat 10
  · subst h5; simp [escSeq, deserStrBody, escDecode]
  by_cases h6 : c = Char.ofNat 12
  · subst h6; simp [escSeq, deserStrBody, escDecode]
  by_cases h7 : c = Char.ofNat 13
  · subst h7; simp [escSeq, deserStrBody, escDecode]
  by_cases h8 : 32 ≤ c.toNat ∧ c.toNat ≤ 126
  · rw [escSeq, if_neg h1, if_neg h2, if_neg h3, if_neg h4, if_neg h5, if_neg h6,
      if_neg h7, if_pos h8]
    exact deserStrBody_plain c tail h1 h2 h8.1
  by_cases h9 : c.toNat < 65536
  · -- a basic-plane character outside printable ASCII: a single `\uXXXX`
    rw [escSeq, if_neg h1, if_neg h2, if_neg h3, if_neg h4, if_neg h5, if_neg h6,
      if_neg h7, if_neg h8, if_pos h9]
    have hnotsur : c.toNat < 55296 ∨ 57343 < c.toNat := by
      rcases char_valid_cases c with h | h
      · exact Or.inl h
      · exact Or.inr h.1
    have hA : ¬(55296 ≤ c.toNat ∧ c.toNat ≤ 56319) := by rcases hnotsur with h | h <;> omega
    have hB : ¬(56320 ≤ c.toNat ∧ c.toNat ≤ 57343) := by rcases hnotsur with h | h <;> omega
    simp only [hexSeq, List.cons_append, List.nil_append]
    rw [deserStrBody_uescape _ _ _ _ _ _ (hexQuad_hexSeq _ h9) hA hB, Char.ofNat_toNat c]
  · -- an astral character: a UTF-16 surrogate pair of escapes
    rw [escSeq, if_neg h1, if_neg h2, if_neg h3, if_neg h4, if_neg h5, if_neg h6,
      if_neg h7, if_neg h8, if_neg h9]
    have hlt : c.toNat < 1114112 := by
      rcases char_valid_cases c with h | h
      · omega
      · exact h.2
    have hq1 : (c.toNat - 65536) / 1024 < 1024 := by omega
    have hq2 : (c.toNat - 65536) % 1024 < 1024 := by omega
    have e1 := hexQuad_hexSeq (55296 + (c.toNat - 65536) / 1024) (by omega)
    have e2 := hexQuad_hexSeq (56320 + (c.toNat - 65536) % 1024) (by omega)
    simp only [hexSeq, List.cons_append, List.append_assoc, List.nil_append]
    rw [deserStrBody_surrogates _ _ _ _ _ _ _ _ _ _ _ e1 e2 (by omega) (by omega)]
    have harith : 65536 + (55296 + (c.toNat - 65536) / 1024 - 55296) * 1024 +
        (56320 + (c.toNat - 65536) % 1024 - 56320) = c.toNat := by omega
    rw [harith, Char.ofNat_toNat c]

theorem deserStrBody_escAll (cs : List Char) (rest : List Char) :
    deserStrBody (escAll cs ++ '"' :: rest) = some (cs, rest) := by
  induction cs with
  | nil => rfl
  | cons c cs ih =>
    rw [escAll, List.append_assoc, deserStrBody_escSeq, ih]

/-! ### Digit runs and decimal representations -/

theorem isDigit_digitChar : ∀ k, k < 10 → isDigit (Char.ofNat (48 + k)) = true := by decide

theorem takeDigits_stop (l : List Char) (h : noDigitHead l) : takeDigits l = ([], l) := by
  cases l with
  | nil => rfl
  | cons c t =>
    have hc : isDigit c = false := h
    simp [takeDigits, hc]

theorem takeDigits_run (ds rest : List Char) (hds : ds.all isDigit = true)
    (hrest : noDigitHead rest) : takeDigits (ds ++ rest) = (ds, rest) := by
  induction ds with
  | nil => simpa using takeDigits_stop rest hrest
  | cons c t ih =>
    simp only [List.all_cons, Bool.and_eq_true] at hds
    simp [takeDigits, hds.1, ih hds.2]

theorem natChars_all_digits (n : Nat) : (natChars n).all isDigit = true := by
  induction n using Nat.strong_induction_on with
  | _ n ih =>
    rw [natChars]
    split
    · rename_i h10
      simp [isDigit_digitChar n h10]
    · rename_i h10
      have hm : n % 10 < 10 := Nat.mod_lt _ (by omega)
      simp [List.all_append, ih (n / 10) (by omega), isDigit_digitChar _ hm]

theorem natChars_zero : natChars 0 = ['0'] := by
  rw [natChars]
  norm_num

theorem natChars_pos (n : Nat) (h : 0 < n) :
    ∃ c t, natChars n = c :: t ∧ 49 ≤ c.toNat ∧ c.toNat ≤ 57 ∧ t.all isDigit = true := by
  induction n using Nat.strong_induction_on with
  | _ n ih =>
    rw [natChars]
    split
    · rename_i h10
      refine ⟨Char.ofNat (48 + n), [], rfl, ?_, ?_, rfl⟩
      · rw [toNat_ofNat_valid _ (Or.inl (by omega))]; omega
      · rw [toNat_ofNat_valid _ (Or.inl (by omega))]; omega
    · rename_i h10
      obtain ⟨c, t, he, h1, h2, h3⟩ := ih (n / 10) (by omega) (by omega)
      have hm : n % 10 < 10 := Nat.mod_lt _ (by omega)
      refine ⟨c, t ++ [Char.ofNat (48 + n % 10)], by rw [he]; rfl, h1, h2, ?_⟩
      simp [List.all_append, h3, isDigit_digitChar _ hm]

theorem intPartShape_natChars (n : Nat) : IntPartShape (natChars n) := by
  rcases Nat.eq_zero_or_pos n with rfl | h
  · exact Or.inl natChars_zero
  · obtain ⟨c, t, he, h1, h2, h3⟩ := natChars_pos n h
    exact Or.inr ⟨c, t, he, h1, h2, h3⟩

theorem numShape_intChars (k : Int) : NumShape (intChars k) := by
  rw [intChars]
  split
  · exact ⟨['-'], natChars k.natAbs, [], [], by simp, Or.inr rfl,
      intPartShape_natChars _, Or.inl rfl, Or.inl rfl⟩
  · exact ⟨[], natChars k.natAbs, [], [], by simp, Or.inl rfl,
      intPartShape_natChars _, Or.inl rfl, Or.inl rfl⟩

/-! ### Number literals parse back exactly -/

theorem noDigitHead_of_numStop (l : List Char) (h : numStop l) : noDigitHead l := by
  cases l with
  | nil => trivial
  | cons c t => exact h.1

theorem noDigitHead_expRest (ep rest : List Char) (he : ExpShape ep) (hr : numStop rest) :
    noDigitHead (ep ++ rest) := by
  rcases he with rfl | ⟨e, sg, d, t, rfl, he2, _, _, _⟩
  · simpa using noDigitHead_of_numStop rest hr
  · show isDigit e = false
    rcases he2 with rfl | rfl <;> decide

theorem noDigitHead_fracExpRest (fp ep rest : List Char) (hf : FracShape fp)
    (he : ExpShape ep) (hr : numStop rest) : noDigitHead (fp ++ (ep ++ rest)) := by
  rcases hf with rfl | ⟨d, t, rfl, _, _⟩
  · simpa using noDigitHead_expRest ep rest he hr
  · show isDigit '.' = false
    decide

theorem deserIntPart_run (ip tail : List Char) (h : IntPartShape ip) (ht : noDigitHead tail) :
    deserIntPart (ip ++ tail) = some (ip, tail) := by
  rcases h with rfl | ⟨c, t, rfl, h1, h2, h3⟩
  · simp [deserIntPart]
  · have hc0 : ¬(c = '0') := by
      intro he; subst he; exact absurd h1 (by decide)
    simp only [List.cons_append, deserIntPart]
    rw [if_neg hc0, if_pos ⟨h1, h2⟩, takeDigits_run t tail h3 ht]

theorem deserFrac_skip (l : List Char) (h : ∀ c t, l = c :: t → c ≠ '.') :
    deserFrac l = ([], l) := by
  match l with
  | [] => rfl
  | [c] => rfl
  | c :: d :: cs =>
    rw [deserFrac]
    rw [if_neg]
    intro hcon
    exact h c (d :: cs) rfl hcon.1

theorem deserFrac_dot (d : Char) (t tail : List Char) (hd : isDigit d = true)
    (ht : t.all isDigit = true) (htail : noDigitHead tail) :
    deserFrac ('.' :: d :: (t ++ tail)) = ('.' :: d :: t, tail) := by
  rw [deserFrac, if_pos ⟨rfl, hd⟩, takeDigits_run t tail ht htail]

theorem deserExp_skip (l : List Char) (h : ∀ c t, l = c :: t → ¬(c = 'e' ∨ c = 'E')) :
    deserExp l = ([], l) := by
  cases l with
  | nil => rfl
  | cons c cs =>
    rw [deserExp.eq_def]
    simp only []
    rw [if_neg (h c cs rfl)]

theorem deserExp_run (e : Char) (sg : List Char) (d : Char) (t tail : List Char)
    (he : e = 'e' ∨ e = 'E') (hsg : sg = [] ∨ sg = ['+'] ∨ sg = ['-'])
    (hd : isDigit d = true) (ht : t.all isDigit = true) (htail : noDigitHead tail) :
    deserExp ((e :: (sg ++ d :: t)) ++ tail) = (e :: (sg ++ d :: t), tail) := by
  have hdp : ¬(d = '+') := by intro hcon; subst hcon; exact absurd hd (by decide)
  have hdm : ¬(d = '-') := by intro hcon; subst hcon; exact absurd hd (by decide)
  rcases hsg with rfl | rfl | rfl
  · simp only [List.nil_append, List.cons_append]
    rw [deserExp.eq_def]
    simp only []
    rw [if_pos he]
    split
    · rename_i heq
      injection heq with hx _
      exact absurd hx hdp
    · rename_i heq
      injection heq with hx _
      exact absurd hx hdm
    · rename_i heq
      injection heq with hx hy
      subst hx
      subst hy
      rw [if_pos hd]
      simp only [takeDigits_run t tail ht htail]
    · rename_i heq
      simp at heq
  · simp only [List.cons_append, List.nil_append]
    rw [deserExp.eq_def]
    simp only []
    rw [if_pos he, if_pos hd, takeDigits_run t tail ht htail]
  · simp only [List.cons_append, List.nil_append]
    rw [deserExp.eq_def]
    simp only []
    rw [if_pos he, if_pos hd, takeDigits_run t tail ht htail]

theorem frac_absent_head (ep rest : List Char) (he : ExpShape ep) (hr : numStop rest) :
    ∀ c t, ep ++ rest = c :: t → c ≠ '.' := by
  intro c t hct
  rcases he with rfl | ⟨e, sg, d, t2, rfl, he2, _, _, _⟩
  · rw [List.nil_append] at hct
    intro hc
    subst hct
    exact hr.2.1 hc
  · rw [List.cons_append] at hct
    injection hct with hx _
    subst hx
    rcases he2 with rfl | rfl <;> decide

theorem exp_absent_head (rest : List Char) (hr : numStop rest) :
    ∀ c t, rest = c :: t → ¬(c = 'e' ∨ c = 'E') := by
  intro c t hct hor
  subst hct
  rcases hor with rfl | rfl
  · exact hr.2.2.1 rfl
  · exact hr.2.2.2 rfl

theorem deserNumCore_run (ip fp ep rest : List Char) (hip : IntPartShape ip)
    (hf : FracShape fp) (he : ExpShape ep) (hr : numStop rest) :
    deserNumCore (ip ++ (fp ++ (ep ++ rest))) = some (ip ++ fp ++ ep, rest) := by
  have hint := deserIntPart_run ip (fp ++ (ep ++ rest)) hip
    (noDigitHead_fracExpRest fp ep rest hf he hr)
  have hfrac : deserFrac (fp ++ (ep ++ rest)) = (fp, ep ++ rest) := by
    rcases hf with rfl | ⟨d, t, rfl, hd, ht⟩
    · rw [List.nil_append]
      exact deserFrac_skip _ (frac_absent_head ep rest he hr)
    · simp only [List.cons_append, List.append_assoc]
      exact deserFrac_dot d t (ep ++ rest) hd ht (noDigitHead_expRest ep rest he hr)
  have hexp : deserExp (ep ++ rest) = (ep, rest) := by
    rcases he with rfl | ⟨e, sg, d, t, rfl, he2, hsg, hd, ht⟩
    · rw [List.nil_append]
      exact deserExp_skip rest (exp_absent_head rest hr)
    · exact deserExp_run e sg d t rest he2 hsg hd ht (noDigitHead_of_numStop rest hr)
  simp only [deserNumCore, hint, hfrac, hexp]

theorem splitSign_other (c : Char) (cs : List Char) (h : ¬(c = '-')) :
    splitSign (c :: cs) = ([], c :: cs) := by
  rw [splitSign.eq_def]
  split
  · rename_i heq
    injection heq with hx _
    exact absurd hx h
  · rfl

theorem deserNumLit_run (l rest : List Char) (h : NumShape l) (hr : numStop rest) :
    deserNumLit (l ++ rest) = some (l, rest) := by
  obtain ⟨sg, ip, fp, ep, rfl, hsg, hip, hf, he⟩ := h
  have hcore := deserNumCore_run ip fp ep rest hip hf he hr
  rcases hsg with rfl | rfl
  · simp only [List.nil_append, List.append_assoc]
    have hsplit : splitSign (ip ++ (fp ++ (ep ++ rest))) = ([], ip ++ (fp ++ (ep ++ rest))) := by
      rcases hip with rfl | ⟨c, t2, rfl, h1, h2, h3⟩
      · rfl
      · exact splitSign_other c _ (fun hc => absurd h1 (by subst hc; decide))
    simp only [deserNumLit, hsplit, hcore, List.nil_append, List.append_assoc]
  · simp only [List.cons_append, List.nil_append, List.append_assoc]
    simp only [deserNumLit, splitSign, hcore, List.cons_append, List.append_assoc,
      List.nil_append]

/-! ### Heads of serialized output, and whitespace -/

theorem numLit_head (l : List Char) (h : NumShape l) :
    ∃ c t, l = c :: t ∧ (c = '-' ∨ isDigit c = true) := by
  obtain ⟨sg, ip, fp, ep, rfl, hsg, hip, _, _⟩ := h
  rcases hsg with rfl | rfl
  · rcases hip with rfl | ⟨c, t, rfl, h1, h2, _⟩
    · exact ⟨'0', fp ++ ep, by simp, Or.inr (by decide)⟩
    · refine ⟨c, t ++ (fp ++ ep), by simp, Or.inr ?_⟩
      simp only [isDigit, decide_eq_true_eq]
      omega
  · exact ⟨'-', ip ++ fp ++ ep, by simp, Or.inl rfl⟩

theorem digit_ne (c : Char) (h : isDigit c = true) :
    c ≠ 'n' ∧ c ≠ 't' ∧ c ≠ 'f' ∧ c ≠ '"' ∧ c ≠ '[' ∧ c ≠ '\x7b' ∧ c ≠ ']' ∧
    c ≠ '\x7d' ∧ jsonWsChar c = false := by
  simp only [isDigit, decide_eq_true_eq] at h
  refine ⟨?_, ?_, ?_, ?_, ?_, ?_, ?_, ?_, ?_⟩
  · intro hc; subst hc; revert h; decide
  · intro hc; subst hc; revert h; decide
  · intro hc; subst hc; revert h; decide
  · intro hc; subst hc; revert h; decide
  · intro hc; subst hc; revert h; decide
  · intro hc; subst hc; revert h; decide
  · intro hc; subst hc; revert h; decide
  · intro hc; subst hc; revert h; decide
  · simp only [jsonWsChar, decide_eq_false_iff_not]
    intro hcon
    rcases hcon with rfl | rfl | rfl | rfl <;> revert h <;> decide

theorem skipWs_cons_not (c : Char) (t : List Char) (h : jsonWsChar c = false) :
    skipWs (c :: t) = c :: t := by
  simp [skipWs, h]

theorem skipWs_space (t : List Char) : skipWs (' ' :: t) = skipWs t := by
  simp [skipWs, jsonWsChar]

theorem ser_head (j : Json) (h : JsonWF j) :
    ∃ c t, ser j = c :: t ∧ jsonWsChar c = false ∧ c ≠ ']' ∧ c ≠ '\x7d' := by
  cases j with
  | null =>
    exact ⟨'n', ['u', 'l', 'l'], by simp [ser, litNullChars], by decide, by decide, by decide⟩
  | bool b =>
    cases b with
    | true =>
      exact ⟨'t', ['r', 'u', 'e'], by simp [ser, litTrueChars], by decide, by decide, by decide⟩
    | false =>
      exact ⟨'f', ['a', 'l', 's', 'e'], by simp [ser, litFalseChars], by decide, by decide,
        by decide⟩
  | num lit =>
    have hsh : NumShape lit.data := h
    obtain ⟨c, t, hct, hc⟩ := numLit_head lit.data hsh
    refine ⟨c, t, by simp [ser, hct], ?_, ?_, ?_⟩
    · rcases hc with rfl | hd
      · decide
      · exact (digit_ne c hd).2.2.2.2.2.2.2.2
    · rcases hc with rfl | hd
      · decide
      · exact (digit_ne c hd).2.2.2.2.2.2.1
    · rcases hc with rfl | hd
      · decide
      · exact (digit_ne c hd).2.2.2.2.2.2.2.1
  | str s =>
    exact ⟨'"', escAll s.data ++ ['"'], by simp [ser, serStr], by decide, by decide, by decide⟩
  | arr vs =>
    cases vs with
    | nil => exact ⟨'[', [']'], by simp [ser], by decide, by decide, by decide⟩
    | cons v vs =>
      exact ⟨'[', ser v ++ serItems vs ++ [']'], by simp [ser], by decide, by decide, by decide⟩
  | obj ms =>
    match ms with
    | [] => exact ⟨'\x7b', ['\x7d'], by simp [ser], by decide, by decide, by decide⟩
    | (k, v) :: ms =>
      exact ⟨'\x7b', serStr k ++ ':' :: ' ' :: ser v ++ serMembers ms ++ ['\x7d'],
        by simp [ser], by decide, by decide, by decide⟩

theorem skipWs_ser (j : Json) (h : JsonWF j) (x : List Char) :
    skipWs (ser j ++ x) = ser j ++ x := by
  obtain ⟨c, t, hct, hws, _, _⟩ := ser_head j h
  rw [hct, List.cons_append, skipWs_cons_not _ _ hws]

/-! ### One-step reductions of the value deserializer -/

theorem deserVal_default (fuel : Nat) (c0 : Char) (t : List Char)
    (h1 : c0 ≠ 'n') (h2 : c0 ≠ 't') (h3 : c0 ≠ 'f') (h4 : c0 ≠ '"')
    (h5 : c0 ≠ '[') (h6 : c0 ≠ '\x7b') :
    deserVal (fuel + 1) (c0 :: t) =
      match deserNumLit (c0 :: t) with
      | some (lit, r) => some (.num (String.mk lit), r)
      | none => none := by
  rw [deserVal.eq_def]
  split
  · rename_i heq
    exact absurd heq (by omega)
  · split
    · rename_i heq
      injection heq with hx _
      exact absurd hx h1
    · rename_i heq
      injection heq with hx _
      exact absurd hx h2
    · rename_i heq
      injection heq with hx _
      exact absurd hx h3
    · rename_i heq
      injection heq with hx _
      exact absurd hx h4
    · rename_i heq
      injection heq with hx _
      exact absurd hx h5
    · rename_i heq
      injection heq with hx _
      exact absurd hx h6
    · rfl

theorem deserVal_arr_more (fuel : Nat) (r : List Char) (c : Char) (t : List Char)
    (hskip : skipWs r = c :: t) (hc : ¬(c = ']')) :
    deserVal (fuel + 1) ('[' :: r) =
      match deserItems fuel (c :: t) with
      | some (vs, r3) => some (.arr vs, r3)
      | none => none := by
  rw [deserVal.eq_def]
  split
  · rename_i heq
    exact absurd heq (by omega)
  · rename_i f heq
    have hf : f = fuel := by omega
    subst hf
    split
    · rename_i heq2
      injection heq2 with hx _
      exact absurd hx (by decide)
    · rename_i heq2
      injection heq2 with hx _
      exact absurd hx (by decide)
    · rename_i heq2
      injection heq2 with hx _
      exact absurd hx (by decide)
    · rename_i heq2
      injection heq2 with hx _
      exact absurd hx (by decide)
    · rename_i r2 heq2
      injection heq2 with _ hr
      subst hr
      rw [hskip]
      split
      · rename_i heq3
        injection heq3 with hx _
        exact absurd hx hc
      · rfl
    · rename_i heq2
      injection heq2 with hx _
      exact absurd hx (by decide)
    · rename_i harr hobj
      exact (harr r rfl).elim

theorem deserVal_obj_more (fuel : Nat) (r : List Char) (c : Char) (t : List Char)
    (hskip : skipWs r = c :: t) (hc : ¬(c = '\x7d')) :
    deserVal (fuel + 1) ('\x7b' :: r) =
      match deserMembers fuel (c :: t) with
      | some (ms, r3) => some (.obj ms, r3)
      | none => none := by
  rw [deserVal.eq_def]
  split
  · rename_i heq
    exact absurd heq (by omega)
  · rename_i f heq
    have hf : f = fuel := by omega
    subst hf
    split
    · rename_i heq2
      injection heq2 with hx _
      exact absurd hx (by decide)
    · rename_i heq2
      injection heq2 with hx _
      exact absurd hx (by decide)
    · rename_i heq2
      injection heq2 with hx _
      exact absurd hx (by decide)
    · rename_i heq2
      injection heq2 with hx _
      exact absurd hx (by decide)
    · rename_i heq2
      injection heq2 with hx _
      exact absurd hx (by decide)
    · rename_i r2 heq2
      injection heq2 with _ hr
      subst hr
      rw [hskip]
      split
      · rename_i heq3
        injection heq3 with hx _
        exact absurd hx hc
      · rfl
    · rename_i hobj
      exact (hobj r rfl).elim

theorem deserItems_congr (fuel : Nat) (a b : List Char) (h : skipWs a = skipWs b) :
    deserItems (fuel + 1) a = deserItems (fuel + 1) b := by
  rw [deserItems, deserItems, h]

theorem deserMembers_congr (fuel : Nat) (a b : List Char) (h : skipWs a = skipWs b) :
    deserMembers (fuel + 1) a = deserMembers (fuel + 1) b := by
  rw [deserMembers, deserMembers, h]

theorem numStop_items (vs : List Json) (rest : List Char) :
    numStop (serItems vs ++ (']' :: rest)) := by
  cases vs with
  | nil =>
    rw [serItems, List.nil_append]
    exact ⟨by decide, by decide, by decide, by decide⟩
  | cons w ws =>
    rw [serItems, List.cons_append]
    exact ⟨by decide, by decide, by decide, by decide⟩

theorem numStop_members (ms : List (String × Json)) (rest : List Char) :
    numStop (serMembers ms ++ ('\x7d' :: rest)) := by
  match ms with
  | [] =>
    rw [serMembers, List.nil_append]
    exact ⟨by decide, by decide, by decide, by decide⟩
  | (k2, v2) :: ms2 =>
    rw [serMembers, List.cons_append]
    exact ⟨by decide, by decide, by decide, by decide⟩

/-! ### The round trip: deserializing serialized output recovers the value -/

mutual

theorem rtVal : ∀ (j : Json) (fuel : Nat) (rest : List Char), JsonWF j →
    (ser j).length < fuel → numStop rest →
    deserVal fuel (ser j ++ rest) = some (j, rest)
  | _j, 0, _rest, _hwf, hfuel, _hstop => absurd hfuel (by omega)
  | .null, _f + 1, rest, _hwf, _hfuel, _hstop => by
    simp [ser, litNullChars, deserVal]
  | .bool b, _f + 1, rest, _hwf, _hfuel, _hstop => by
    cases b <;> simp [ser, litTrueChars, litFalseChars, deserVal]
  | .num lit, f + 1, rest, hwf, _hfuel, hstop => by
    have hsh : NumShape lit.data := hwf
    obtain ⟨c, t, hct, hc⟩ := numLit_head lit.data hsh
    have hne : c ≠ 'n' ∧ c ≠ 't' ∧ c ≠ 'f' ∧ c ≠ '"' ∧ c ≠ '[' ∧ c ≠ '\x7b' := by
      rcases hc with rfl | hd
      · exact ⟨by decide, by decide, by decide, by decide, by decide, by decide⟩
      · obtain ⟨a1, a2, a3, a4, a5, a6, _⟩ := digit_ne c hd
        exact ⟨a1, a2, a3, a4, a5, a6⟩
    have hser : ser (.num lit) = lit.data := by simp [ser]
    rw [hser, hct, List.cons_append,
      deserVal_default f c (t ++ rest) hne.1 hne.2.1 hne.2.2.1 hne.2.2.2.1
        hne.2.2.2.2.1 hne.2.2.2.2.2,
      ← List.cons_append, ← hct, deserNumLit_run lit.data rest hsh hstop]
  | .str s, _f + 1, rest, _hwf, _hfuel, _hstop => by
    have hser : ser (.str s) ++ rest = '"' :: (escAll s.data ++ ('"' :: rest)) := by
      simp [ser, serStr]
    rw [hser]
    simp only [deserVal, deserStrBody_escAll]
  | .arr [], _f + 1, rest, _hwf, _hfuel, _hstop => by
    have hser : ser (.arr []) ++ rest = '[' :: (']' :: rest) := by simp [ser]
    rw [hser]
    simp [deserVal, skipWs, jsonWsChar]
  | .arr (v :: vs), f + 1, rest, hwf, hfuel, hstop => by
    have hwf2 : JsonWF v ∧ ItemsWF vs := by simpa only [JsonWF, ItemsWF] using hwf
    have hlen : (ser v).length + (serItems vs).length + 1 < f := by
      have hs : ser (.arr (v :: vs)) = '[' :: (ser v ++ serItems vs ++ [']']) := by
        simp [ser]
      rw [hs] at hfuel
      simp only [List.length_cons, List.length_append] at hfuel
      omega
    obtain ⟨c, t, hct, hws, hbr, _⟩ := ser_head v hwf2.1
    have hser : ser (.arr (v :: vs)) ++ rest
        = '[' :: (ser v ++ (serItems vs ++ (']' :: rest))) := by
      simp [ser]
    have hskip : skipWs (ser v ++ (serItems vs ++ (']' :: rest)))
        = c :: (t ++ (serItems vs ++ (']' :: rest))) := by
      rw [hct, List.cons_append, skipWs_cons_not _ _ hws]
    rw [hser, deserVal_arr_more f _ c _ hskip hbr, ← List.cons_append, ← hct,
      rtItems v vs f rest hwf2 hlen hstop]
  | .obj [], _f + 1, rest, _hwf, _hfuel, _hstop => by
    have hser : ser (.obj []) ++ rest = '\x7b' :: ('\x7d' :: rest) := by simp [ser]
    rw [hser]
    simp [deserVal, skipWs, jsonWsChar]
  | .obj ((k, v) :: ms), f + 1, rest, hwf, hfuel, hstop => by
    have hwf2 : JsonWF v ∧ MembersWF ms := by simpa only [JsonWF, MembersWF] using hwf
    have hlen : (serStr k).length + (ser v).length + (serMembers ms).length + 2 < f := by
      have hs : ser (.obj ((k, v) :: ms))
          = '\x7b' :: (serStr k ++ ':' :: ' ' :: ser v ++ serMembers ms ++ ['\x7d']) := by
        simp [ser]
      rw [hs] at hfuel
      simp only [List.length_cons, List.length_append] at hfuel
      omega
    have hser : ser (.obj ((k, v) :: ms)) ++ rest
        = '\x7b' :: (serStr k ++ (':' :: ' ' :: (ser v ++ (serMembers ms ++ ('\x7d' :: rest))))) := by
      simp [ser, serStr]
    have hskip : skipWs (serStr k ++ (':' :: ' ' :: (ser v ++ (serMembers ms ++ ('\x7d' :: rest)))))
        = '"' :: (escAll k.data ++ ('"' :: (':' :: ' ' :: (ser v ++ (serMembers ms ++ ('\x7d' :: rest)))))) := by
      rw [serStr, List.cons_append, skipWs_cons_not _ _ (by decide)]
      simp
    rw [hser, deserVal_obj_more f _ '"' _ hskip (by decide)]
    have hkey : '"' :: (escAll k.data ++ ('"' :: (':' :: ' ' :: (ser v ++ (serMembers ms ++ ('\x7d' :: rest))))))
        = serStr k ++ (':' :: ' ' :: (ser v ++ (serMembers ms ++ ('\x7d' :: rest)))) := by
      simp [serStr]
    rw [hkey, rtMembers k v ms f rest hwf2 hlen hstop]
termination_by j _ _ _ _ _ => sizeOf j

theorem rtItems : ∀ (v : Json) (vs : List Json) (fuel : Nat) (rest : List Char),
    JsonWF v ∧ ItemsWF vs → (ser v).length + (serItems vs).length + 1 < fuel →
    numStop rest →
    deserItems fuel (ser v ++ (serItems vs ++ (']' :: rest))) = some (v :: vs, rest)
  | _v, _vs, 0, _rest, _hwf, hfuel, _hstop => absurd hfuel (by omega)
  | v, [], f + 1, rest, hwf, hfuel, hstop => by
    rw [deserItems, skipWs_ser v hwf.1,
      rtVal v f (serItems [] ++ (']' :: rest)) hwf.1 (by omega) (numStop_items [] rest)]
    rw [serItems, List.nil_append]
    simp only [skipWs_cons_not ']' rest (by decide)]
  | v, w :: ws, f + 1, rest, hwf, hfuel, hstop => by
    rw [deserItems, skipWs_ser v hwf.1,
      rtVal v f (serItems (w :: ws) ++ (']' :: rest)) hwf.1 (by omega)
        (numStop_items (w :: ws) rest)]
    have hwf2 : JsonWF w ∧ ItemsWF ws := by
      have h2 := hwf.2
      simp only [ItemsWF] at h2
      exact h2
    have hlen2 : (ser w).length + (serItems ws).length + 1 < f := by
      rw [serItems] at hfuel
      simp only [List.length_cons] at hfuel
      simp only [List.length_append] at hfuel
      omega
    have hcg : deserItems f (' ' :: (ser w ++ (serItems ws ++ (']' :: rest))))
        = some (w :: ws, rest) := by
      cases f with
      | zero => exact absurd hlen2 (by omega)
      | succ f2 =>
        rw [deserItems_congr f2 _ _ (skipWs_space _),
          rtItems w ws (f2 + 1) rest hwf2 hlen2 hstop]
    rw [serItems, List.cons_append]
    simp only [List.cons_append, List.append_assoc, skipWs_cons_not ',' _ (by decide), hcg]
termination_by v vs _ _ _ _ _ => 1 + sizeOf v + sizeOf vs

theorem rtMembers : ∀ (k : String) (v : Json) (ms : List (String × Json)) (fuel : Nat)
    (rest : List Char), JsonWF v ∧ MembersWF ms →
    (serStr k).length + (ser v).length + (serMembers ms).length + 2 < fuel →
    numStop rest →
    deserMembers fuel
        (serStr k ++ (':' :: ' ' :: (ser v ++ (serMembers ms ++ ('\x7d' :: rest)))))
      = some ((k, v) :: ms, rest)
  | _k, _v, _ms, 0, _rest, _hwf, hfuel, _hstop => absurd hfuel (by omega)
  | k, v, [], f + 1, rest, hwf, hfuel, hstop => by
    rw [deserMembers]
    rw [show serStr k ++ (':' :: ' ' :: (ser v ++ (serMembers [] ++ ('\x7d' :: rest))))
        = '"' :: (escAll k.data ++ ('"' :: (':' :: ' ' :: (ser v ++ (serMembers [] ++ ('\x7d' :: rest))))))
      from by simp [serStr]]
    rw [skipWs_cons_not '"' _ (by decide)]
    simp only [deserStrBody_escAll]
    rw [skipWs_cons_not ':' _ (by decide)]
    have hv : deserVal f (skipWs (' ' :: (ser v ++ (serMembers [] ++ ('\x7d' :: rest)))))
        = some (v, serMembers [] ++ ('\x7d' :: rest)) := by
      rw [skipWs_space, skipWs_ser v hwf.1,
        rtVal v f (serMembers [] ++ ('\x7d' :: rest)) hwf.1 (by omega)
          (numStop_members [] rest)]
    simp only [hv]
    rw [serMembers, List.nil_append]
    simp only [skipWs_cons_not '\x7d' rest (by decide)]
  | k, v, (k2, v2) :: ms2, f + 1, rest, hwf, hfuel, hstop => by
    rw [deserMembers]
    rw [show serStr k ++ (':' :: ' ' :: (ser v ++ (serMembers ((k2, v2) :: ms2) ++ ('\x7d' :: rest))))
        = '"' :: (escAll k.data ++ ('"' :: (':' :: ' ' :: (ser v ++ (serMembers ((k2, v2) :: ms2) ++ ('\x7d' :: rest))))))
      from by simp [serStr]]
    rw [skipWs_cons_not '"' _ (by decide)]
    simp only [deserStrBody_escAll]
    rw [skipWs_cons_not ':' _ (by decide)]
    have hv : deserVal f (skipWs (' ' :: (ser v ++ (serMembers ((k2, v2) :: ms2) ++ ('\x7d' :: rest)))))
        = some (v, serMembers ((k2, v2) :: ms2) ++ ('\x7d' :: rest)) := by
      rw [skipWs_space, skipWs_ser v hwf.1,
        rtVal v f (serMembers ((k2, v2) :: ms2) ++ ('\x7d' :: rest)) hwf.1 (by omega)
          (numStop_members ((k2, v2) :: ms2) rest)]
    simp only [hv]
    have hwf2 : JsonWF v2 ∧ MembersWF ms2 := by
      have h2 := hwf.2
      simp only [MembersWF] at h2
      exact h2
    have hlen2 : (serStr k2).length + (ser v2).length + (serMembers ms2).length + 2 < f := by
      rw [serMembers] at hfuel
      simp only [List.length_cons, List.length_append] at hfuel
      omega
    have hcg : deserMembers f
        (' ' :: (serStr k2 ++ (':' :: ' ' :: (ser v2 ++ (serMembers ms2 ++ ('\x7d' :: rest))))))
        = some ((k2, v2) :: ms2, rest) := by
      cases f with
      | zero => exact absurd hlen2 (by omega)
      | succ f2 =>
        rw [deserMembers_congr f2 _ _ (skipWs_space _),
          rtMembers k2 v2 ms2 (f2 + 1) rest hwf2 hlen2 hstop]
    rw [serMembers, List.cons_append]
    simp only [List.cons_append, List.append_assoc, skipWs_cons_not ',' _ (by decide), hcg]
termination_by _ v ms _ _ _ _ _ => 1 + sizeOf v + sizeOf ms

end


/-- Deserializing the serialization of any well-formed value recovers it,
the model-level statement that `json.loads(json.dumps(x)) == x`. -/
theorem loads_dumps (j : Json) (h : JsonWF j) : loads (dumps j) = some j := by
  obtain ⟨c, t, hct, hws, _, _⟩ := ser_head j h
  have hdata : (dumps j).data = ser j := rfl
  have hskip : skipWs (ser j) = ser j := by
    rw [hct]
    exact skipWs_cons_not c t hws
  have hrt := rtVal j ((ser j).length + 1) [] h (by omega) trivial
  rw [List.append_nil] at hrt
  simp only [loads, hdata, hskip, hrt]
  rfl

/-! ### Well-formedness of the payloads the module builds -/

theorem jsonWF_obj_nil : JsonWF (.obj []) := by
  simp [JsonWF, MembersWF]

theorem jsonWF_pyOr (v d : Json) (hv : JsonWF v) (hd : JsonWF d) : JsonWF (pyOr v d) := by
  rw [pyOr]
  split <;> assumption

theorem jsonWF_error_payload (es : Int) : JsonWF (error_payload es) := by
  simp only [error_payload, JsonWF, MembersWF]
  refine ⟨trivial, ?_, trivial, trivial⟩
  show NumShape (String.mk (intChars es)).data
  exact numShape_intChars es

theorem jsonWF_fake_get_payload (url : String) (params headers : Json) (reqId : Nat)
    (timeLit : String) (hp : JsonWF params) (hh : JsonWF headers)
    (ht : NumShape timeLit.data) :
    JsonWF (fake_get_payload url params headers reqId timeLit) := by
  simp only [fake_get_payload, JsonWF, MembersWF]
  exact ⟨trivial, trivial, jsonWF_pyOr _ _ hp jsonWF_obj_nil,
    jsonWF_pyOr _ _ hh jsonWF_obj_nil, ht, trivial⟩

theorem jsonWF_fake_post_payload (url : String) (data headers : Json) (reqId : Nat)
    (timeLit : String) (hp : JsonWF data) (hh : JsonWF headers)
    (ht : NumShape timeLit.data) :
    JsonWF (fake_post_payload url data headers reqId timeLit) := by
  simp only [fake_post_payload, JsonWF, MembersWF]
  exact ⟨trivial, trivial, jsonWF_pyOr _ _ hp jsonWF_obj_nil,
    jsonWF_pyOr _ _ hh jsonWF_obj_nil, ht, trivial⟩

/-! ### Evaluating the simulated calls on each class of input -/

theorem simulate_api_get_success (s : String) (params headers : Json) (es : Int)
    (delay : Rat) (reqId : Nat) (timeLit : String) (st : Nat)
    (hs : ¬((pyStrip s).data.isEmpty = true))
    (hp : (isNone params || isDict params) = true)
    (hh : (isNone headers || isDict headers) = true) :
    simulate_api_get (.str s) params headers false es delay reqId timeLit st
      = (.ok (generate_fake_response s params headers reqId timeLit st),
         [.sleep delay]) := by
  have hp2 : (!isNone params && !isDict params) = false := by
    rcases Bool.or_eq_true_iff.mp hp with h | h <;> simp [h]
  have hh2 : (!isNone headers && !isDict headers) = false := by
    rcases Bool.or_eq_true_iff.mp hh with h | h <;> simp [h]
  simp only [simulate_api_get, if_neg hs, hp2, hh2, Bool.false_eq_true, if_false]

theorem simulate_api_get_error (s : String) (params headers : Json) (es : Int)
    (delay : Rat) (reqId : Nat) (timeLit : String) (st : Nat)
    (hs : ¬((pyStrip s).data.isEmpty = true))
    (hp : (isNone params || isDict params) = true)
    (hh : (isNone headers || isDict headers) = true) :
    simulate_api_get (.str s) params headers true es delay reqId timeLit st
      = (.ok (error_response es), [.sleep delay]) := by
  have hp2 : (!isNone params && !isDict params) = false := by
    rcases Bool.or_eq_true_iff.mp hp with h | h <;> simp [h]
  have hh2 : (!isNone headers && !isDict headers) = false := by
    rcases Bool.or_eq_true_iff.mp hh with h | h <;> simp [h]
  simp only [simulate_api_get, if_neg hs, hp2, hh2, Bool.false_eq_true, if_false, if_true]

theorem simulate_api_post_success (s : String) (data headers : Json) (es : Int)
    (delay : Rat) (reqId : Nat) (timeLit : String) (st : Nat)
    (hs : ¬((pyStrip s).data.isEmpty = true))
    (hp : (isNone data || isDict data) = true)
    (hh : (isNone headers || isDict headers) = true) :
    simulate_api_post (.str s) data headers false es delay reqId timeLit st
      = (.ok (generate_fake_post_response s data headers reqId timeLit st),
         [.sleep delay]) := by
  have hp2 : (!isNone data && !isDict data) = false := by
    rcases Bool.or_eq_true_iff.mp hp with h | h <;> simp [h]
  have hh2 : (!isNone headers && !isDict headers) = false := by
    rcases Bool.or_eq_true_iff.mp hh with h | h <;> simp [h]
  simp only [simulate_api_post, if_neg hs, hp2, hh2, Bool.false_eq_true, if_false]

theorem simulate_api_post_error (s : String) (data headers : Json) (es : Int)
    (delay : Rat) (reqId : Nat) (timeLit : String) (st : Nat)
    (hs : ¬((pyStrip s).data.isEmpty = true))
    (hp : (isNone data || isDict data) = true)
    (hh : (isNone headers || isDict headers) = true) :
    simulate_api_post (.str s) data headers true es delay reqId timeLit st
      = (.ok (error_response es), [.sleep delay]) := by
  have hp2 : (!isNone data && !isDict data) = false := by
    rcases Bool.or_eq_true_iff.mp hp with h | h <;> simp [h]
  have hh2 : (!isNone headers && !isDict headers) = false := by
    rcases Bool.or_eq_true_iff.mp hh with h | h <;> simp [h]
  simp only [simulate_api_post, if_neg hs, hp2, hh2, Bool.false_eq_true, if_false, if_true]

theorem simulate_api_get_ok (url params headers : Json) (se : Bool) (es : Int)
    (delay : Rat) (reqId : Nat) (timeLit : String) (st : Nat) (r : ResponseData)
    (h : (simulate_api_get url params headers se es delay reqId timeLit st).1 = .ok r) :
    (se = true ∧ r = error_response es) ∨
    (se = false ∧ ∃ s, url = .str s ∧
      r = generate_fake_response s params headers reqId timeLit st) := by
  cases url with
  | str s =>
    simp only [simulate_api_get] at h
    split at h
    · simp at h
    · split at h
      · simp at h
      · split at h
        · simp at h
        · split at h
          · rename_i hse
            simp only [Except.ok.injEq] at h
            exact Or.inl ⟨hse, h.symm⟩
          · rename_i hse
            simp only [Except.ok.injEq] at h
            exact Or.inr ⟨Bool.not_eq_true se ▸ hse, s, rfl, h.symm⟩
  | null => simp [simulate_api_get] at h
  | bool b => simp [simulate_api_get] at h
  | num lit => simp [simulate_api_get] at h
  | arr vs => simp [simulate_api_get] at h
  | obj ms => simp [simulate_api_get] at h

theorem simulate_api_post_ok (url data headers : Json) (se : Bool) (es : Int)
    (delay : Rat) (reqId : Nat) (timeLit : String) (st : Nat) (r : ResponseData)
    (h : (simulate_api_post url data headers se es delay reqId timeLit st).1 = .ok r) :
    (se = true ∧ r = error_response es) ∨
    (se = false ∧ ∃ s, url = .str s ∧
      r = generate_fake_post_response s data headers reqId timeLit st) := by
  cases url with
  | str s =>
    simp only [simulate_api_post] at h
    split at h
    · simp at h
    · split at h
      · simp at h
      · split at h
        · simp at h
        · split at h
          · rename_i hse
            simp only [Except.ok.injEq] at h
            exact Or.inl ⟨hse, h.symm⟩
          · rename_i hse
            simp only [Except.ok.injEq] at h
            exact Or.inr ⟨Bool.not_eq_true se ▸ hse, s, rfl, h.symm⟩
  | null => simp [simulate_api_post] at h
  | bool b => simp [simulate_api_post] at h
  | num lit => simp [simulate_api_post] at h
  | arr vs => simp [simulate_api_post] at h
  | obj ms => simp [simulate_api_post] at h

theorem simulate_api_get_badurl (url params headers : Json) (se : Bool) (es : Int)
    (delay : Rat) (reqId : Nat) (timeLit : String) (st : Nat)
    (h : (∃ s, url = .str s ∧ (pyStrip s).data.isEmpty = true) ∨ isStr url = false) :
    simulate_api_get url params headers se es delay reqId timeLit st
      = (.error (.valueError urlErrMsg), []) := by
  rcases h with ⟨s, rfl, hs⟩ | h
  · simp only [simulate_api_get, if_pos hs]
  · cases url with
    | str s => simp [isStr] at h
    | null => rfl
    | bool b => rfl
    | num lit => rfl
    | arr vs => rfl
    | obj ms => rfl

theorem simulate_api_post_badurl (url data headers : Json) (se : Bool) (es : Int)
    (delay : Rat) (reqId : Nat) (timeLit : String) (st : Nat)
    (h : (∃ s, url = .str s ∧ (pyStrip s).data.isEmpty = true) ∨ isStr url = false) :
    simulate_api_post url data headers se es delay reqId timeLit st
      = (.error (.valueError urlErrMsg), []) := by
  rcases h with ⟨s, rfl, hs⟩ | h
  · simp only [simulate_api_post, if_pos hs]
  · cases url with
    | str s => simp [isStr] at h
    | null => rfl
    | bool b => rfl
    | num lit => rfl
    | arr vs => rfl
    | obj ms => rfl

theorem simulate_api_get_badparams (s : String) (params headers : Json) (se : Bool)
    (es : Int) (delay : Rat) (reqId : Nat) (timeLit : String) (st : Nat)
    (hu : ¬((pyStrip s).data.isEmpty = true))
    (hp1 : isNone params = false) (hp2 : isDict params = false) :
    simulate_api_get (.str s) params headers se es delay reqId timeLit st
      = (.error (.typeError "params must be a dictionary or None."), []) := by
  have hu2 : ¬((pyStrip s).data = []) := by simpa [List.isEmpty_iff] using hu
  simp [simulate_api_get, hu2, hp1, hp2]

theorem simulate_api_get_badheaders (s : String) (params headers : Json) (se : Bool)
    (es : Int) (delay : Rat) (reqId : Nat) (timeLit : String) (st : Nat)
    (hu : ¬((pyStrip s).data.isEmpty = true))
    (hp : (isNone params || isDict params) = true)
    (hh1 : isNone headers = false) (hh2 : isDict headers = false) :
    simulate_api_get (.str s) params headers se es delay reqId timeLit st
      = (.error (.typeError "headers must be a dictionary or None."), []) := by
  have hu2 : ¬((pyStrip s).data = []) := by simpa [List.isEmpty_iff] using hu
  have hp2 : (!isNone params && !isDict params) = false := by
    rcases Bool.or_eq_true_iff.mp hp with h | h <;> simp [h]
  simp [simulate_api_get, hu2, hp2, hh1, hh2]

theorem simulate_api_post_baddata (s : String) (data headers : Json) (se : Bool)
    (es : Int) (delay : Rat) (reqId : Nat) (timeLit : String) (st : Nat)
    (hu : ¬((pyStrip s).data.isEmpty = true))
    (hp1 : isNone data = false) (hp2 : isDict data = false) :
    simulate_api_post (.str s) data headers se es delay reqId timeLit st
      = (.error (.typeError "data must be a dictionary or None."), []) := by
  have hu2 : ¬((pyStrip s).data = []) := by simpa [List.isEmpty_iff] using hu
  simp [simulate_api_post, hu2, hp1, hp2]

theorem simulate_api_post_badheaders (s : String) (data headers : Json) (se : Bool)
    (es : Int) (delay : Rat) (reqId : Nat) (timeLit : String) (st : Nat)
    (hu : ¬((pyStrip s).data.isEmpty = true))
    (hp : (isNone data || isDict data) = true)
    (hh1 : isNone headers = false) (hh2 : isDict headers = false) :
    simulate_api_post (.str s) data headers se es delay reqId timeLit st
      = (.error (.typeError "headers must be a dictionary or None."), []) := by
  have hu2 : ¬((pyStrip s).data = []) := by simpa [List.isEmpty_iff] using hu
  have hp2 : (!isNone data && !isDict data) = false := by
    rcases Bool.or_eq_true_iff.mp hp with h | h <;> simp [h]
  simp [simulate_api_post, hu2, hp2, hh1, hh2]

theorem pyStrip_all_space (s : String) (h : s.data.all pyIsSpace = true) :
    (pyStrip s).data.isEmpty = true := by
  have h1 : s.data.dropWhile pyIsSpace = [] := by
    rw [List.dropWhile_eq_nil_iff]
    intro x hx
    exact List.all_eq_true.mp h x hx
  rw [pyStrip, h1]
  rfl

theorem wt_of_not_bad (v : Json) (h : ¬(isNone v = false ∧ isDict v = false)) :
    (isNone v || isDict v) = true := by
  cases hn : isNone v with
  | true => simp
  | false =>
    cases hd : isDict v with
    | true => simp
    | false => exact absurd ⟨hn, hd⟩ h

theorem numShape_lit_two : NumShape "2".data :=
  ⟨[], ['2'], [], [], by decide, Or.inl rfl,
    Or.inr ⟨'2', [], rfl, by decide, by decide, rfl⟩, Or.inl rfl, Or.inl rfl⟩

/-! ### The claims -/

/-- Claim C1, counterexample: the claim quantifies over every non-empty
string `url`, but the whitespace-only url `" "` is a non-empty string for
which both calls raise `ValueError` instead of returning a `ResponseData`
(the code checks `url.strip()`, not `url`). -/
theorem C1_counterexample :
    (" " : String) ≠ "" ∧
    (simulate_api_get (.str " ") .null .null false 500 (1/10 : Rat) 1 "2" 250).1
      = .error (.valueError urlErrMsg) ∧
    (simulate_api_post (.str " ") .null .null false 500 (1/10 : Rat) 1 "2" 250).1
      = .error (.valueError urlErrMsg) := by
  refine ⟨by decide, rfl, rfl⟩

/-- Claim C1, amended: for every `url` that is non-empty after stripping
whitespace and well-typed optional mappings, `simulate_api_get` and
`simulate_api_post` with `simulate_error = false` return a `ResponseData`
whose `status_code` lies in `[200, 299]` (the status draw is
`random.randint(200, 299)`, whose contract is the hypothesis on `st`). -/
theorem C1_amended (url : String) (params headers : Json) (es : Int) (delay : Rat)
    (reqId : Nat) (timeLit : String) (st : Nat)
    (hu : ¬((pyStrip url).data.isEmpty = true))
    (hp : (isNone params || isDict params) = true)
    (hh : (isNone headers || isDict headers) = true)
    (hst : 200 ≤ st ∧ st ≤ 299) :
    ∃ rg rp,
      (simulate_api_get (.str url) params headers false es delay reqId timeLit st).1
        = .ok rg ∧
      200 ≤ rg.status_code ∧ rg.status_code ≤ 299 ∧
      (simulate_api_post (.str url) params headers false es delay reqId timeLit st).1
        = .ok rp ∧
      200 ≤ rp.status_code ∧ rp.status_code ≤ 299 := by
  refine ⟨generate_fake_response url params headers reqId timeLit st,
    generate_fake_post_response url params headers reqId timeLit st,
    ?_, ?_, ?_, ?_, ?_, ?_⟩
  · rw [simulate_api_get_success url params headers es delay reqId timeLit st hu hp hh]
  · show (200 : Int) ≤ (st : Nat)
    exact_mod_cast hst.1
  · show ((st : Nat) : Int) ≤ 299
    exact_mod_cast hst.2
  · rw [simulate_api_post_success url params headers es delay reqId timeLit st hu hp hh]
  · show (200 : Int) ≤ (st : Nat)
    exact_mod_cast hst.1
  · show ((st : Nat) : Int) ≤ 299
    exact_mod_cast hst.2

/-- Claim C1, witness: the amended claim at `url = "/users"` with the
status draw 250. -/
theorem C1_witness :
    ∃ rg rp,
      (simulate_api_get (.str "/users") .null .null false 500 (1/10 : Rat) 1 "2" 250).1
        = .ok rg ∧
      200 ≤ rg.status_code ∧ rg.status_code ≤ 299 ∧
      (simulate_api_post (.str "/users") .null .null false 500 (1/10 : Rat) 1 "2" 250).1
        = .ok rp ∧
      200 ≤ rp.status_code ∧ rp.status_code ≤ 299 :=
  C1_amended "/users" .null .null 500 (1/10) 1 "2" 250 (by decide) (by decide)
    (by decide) (by decide)

/-- Claim C2: with `simulate_error = true` and any integer `error_status`,
both functions return normally (an `Except.ok`, not an exception) with
`status_code` equal to the supplied `error_status` exactly, and the payload
carries the error flag, the numeric status, and a human-readable message. -/
theorem C2_simulated_error (url : String) (params headers : Json) (es : Int)
    (delay : Rat) (reqId : Nat) (timeLit : String) (st : Nat)
    (hu : ¬((pyStrip url).data.isEmpty = true))
    (hp : (isNone params || isDict params) = true)
    (hh : (isNone headers || isDict headers) = true) :
    ∃ r,
      (simulate_api_get (.str url) params headers true es delay reqId timeLit st).1
        = .ok r ∧
      (simulate_api_post (.str url) params headers true es delay reqId timeLit st).1
        = .ok r ∧
      r.status_code = es ∧
      getItem r.json_data "error" = some (.str "Simulated error") ∧
      getItem r.json_data "status" = some (.num (String.mk (intChars es))) ∧
      getItem r.json_data "message" = some (.str "This is a fake error response.") := by
  refine ⟨error_response es, ?_, ?_, rfl, rfl, rfl, rfl⟩
  · rw [simulate_api_get_error url params headers es delay reqId timeLit st hu hp hh]
  · rw [simulate_api_post_error url params headers es delay reqId timeLit st hu hp hh]

/-- Claim C2, witness: the spec's own example, `simulate_post("/orders",
body={"qty": 3}, simulate_error=true, error_status=503)`. -/
theorem C2_witness :
    ∃ r,
      (simulate_api_get (.str "/orders") (.obj [("qty", .num "3")]) .null true 503
          (1/10 : Rat) 1 "2" 250).1 = .ok r ∧
      (simulate_api_post (.str "/orders") (.obj [("qty", .num "3")]) .null true 503
          (1/10 : Rat) 1 "2" 250).1 = .ok r ∧
      r.status_code = 503 ∧
      getItem r.json_data "error" = some (.str "Simulated error") ∧
      getItem r.json_data "status" = some (.num (String.mk (intChars 503))) ∧
      getItem r.json_data "message" = some (.str "This is a fake error response.") :=
  C2_simulated_error "/orders" (.obj [("qty", .num "3")]) .null 503 (1/10) 1 "2" 250
    (by decide) (by decide) (by decide)

/-- Claim C3: for every `ResponseData` either function returns (success or
simulated-error branch), deserializing `raw_text` yields exactly the stored
payload: the two never diverge. -/
theorem C3_raw_text_roundtrip (url params headers : Json) (se : Bool) (es : Int)
    (delay : Rat) (reqId : Nat) (timeLit : String) (st : Nat) (r : ResponseData)
    (hp : JsonWF params) (hh : JsonWF headers) (ht : NumShape timeLit.data)
    (hr : (simulate_api_get url params headers se es delay reqId timeLit st).1 = .ok r
        ∨ (simulate_api_post url params headers se es delay reqId timeLit st).1 = .ok r) :
    loads r.raw_text = some r.json_data := by
  rcases hr with hr | hr
  · rcases simulate_api_get_ok url params headers se es delay reqId timeLit st r hr with
      ⟨_, rfl⟩ | ⟨_, s, _, rfl⟩
    · exact loads_dumps _ (jsonWF_error_payload es)
    · exact loads_dumps _
        (jsonWF_fake_get_payload s params headers reqId timeLit hp hh ht)
  · rcases simulate_api_post_ok url params headers se es delay reqId timeLit st r hr with
      ⟨_, rfl⟩ | ⟨_, s, _, rfl⟩
    · exact loads_dumps _ (jsonWF_error_payload es)
    · exact loads_dumps _
        (jsonWF_fake_post_payload s params headers reqId timeLit hp hh ht)

/-- Claim C3, witness: the round trip holds for the concrete response of
`simulate_api_get("/users")` with request id 1, time literal `2`, status 250. -/
theorem C3_witness :
    loads (generate_fake_response "/users" .null .null 1 "2" 250).raw_text
      = some (generate_fake_response "/users" .null .null 1 "2" 250).json_data :=
  C3_raw_text_roundtrip (.str "/users") .null .null false 500 (1/10) 1 "2" 250
    (generate_fake_response "/users" .null .null 1 "2" 250)
    (by simp [JsonWF]) (by simp [JsonWF]) numShape_lit_two (Or.inl rfl)

/-- Claim C4: an empty-string or non-string `url` makes both functions fail
with the `ValueError`, before the simulated delay (the effect trace is
empty), and the error is not caught even when `simulate_error` is set
(`se` is arbitrary here). -/
theorem C4_url_validation (url params headers : Json) (se : Bool) (es : Int)
    (delay : Rat) (reqId : Nat) (timeLit : String) (st : Nat)
    (h : url = .str "" ∨ isStr url = false) :
    simulate_api_get url params headers se es delay reqId timeLit st
      = (.error (.valueError urlErrMsg), []) ∧
    simulate_api_post url params headers se es delay reqId timeLit st
      = (.error (.valueError urlErrMsg), []) := by
  have h2 : (∃ s, url = .str s ∧ (pyStrip s).data.isEmpty = true) ∨ isStr url = false := by
    rcases h with rfl | h
    · exact Or.inl ⟨"", rfl, by decide⟩
    · exact Or.inr h
  exact ⟨simulate_api_get_badurl url params headers se es delay reqId timeLit st h2,
    simulate_api_post_badurl url params headers se es delay reqId timeLit st h2⟩

/-- Claim C4, witness: the integer `3` as url, with `simulate_error = true`. -/
theorem C4_witness :
    simulate_api_get (.num "3") .null .null true 503 (1/10 : Rat) 1 "2" 250
      = (.error (.valueError urlErrMsg), []) ∧
    simulate_api_post (.num "3") .null .null true 503 (1/10 : Rat) 1 "2" 250
      = (.error (.valueError urlErrMsg), []) :=
  C4_url_validation (.num "3") .null .null true 503 (1/10) 1 "2" 250 (Or.inr rfl)

/-- Claim C5: a `params`/`data` or `headers` argument that is neither
`None` nor a mapping makes both functions fail with a `TypeError`, before
the simulated delay (the effect trace is empty), for any valid url. -/
theorem C5_mapping_validation (url : String) (params headers : Json) (se : Bool)
    (es : Int) (delay : Rat) (reqId : Nat) (timeLit : String) (st : Nat)
    (hu : ¬((pyStrip url).data.isEmpty = true))
    (h : (isNone params = false ∧ isDict params = false) ∨
         (isNone headers = false ∧ isDict headers = false)) :
    (∃ m, simulate_api_get (.str url) params headers se es delay reqId timeLit st
        = (.error (.typeError m), [])) ∧
    (∃ m, simulate_api_post (.str url) params headers se es delay reqId timeLit st
        = (.error (.typeError m), [])) := by
  constructor
  · by_cases hbad : isNone params = false ∧ isDict params = false
    · exact ⟨_, simulate_api_get_badparams url params headers se es delay reqId timeLit st
        hu hbad.1 hbad.2⟩
    · rcases h with h | h
      · exact absurd h hbad
      · exact ⟨_, simulate_api_get_badheaders url params headers se es delay reqId timeLit st
          hu (wt_of_not_bad params hbad) h.1 h.2⟩
  · by_cases hbad : isNone params = false ∧ isDict params = false
    · exact ⟨_, simulate_api_post_baddata url params headers se es delay reqId timeLit st
        hu hbad.1 hbad.2⟩
    · rcases h with h | h
      · exact absurd h hbad
      · exact ⟨_, simulate_api_post_badheaders url params headers se es delay reqId timeLit st
          hu (wt_of_not_bad params hbad) h.1 h.2⟩

/-- Claim C5, witness: the integer `3` as the mapping argument. -/
theorem C5_witness :
    (∃ m, simulate_api_get (.str "/u") (.num "3") .null false 500 (1/10 : Rat) 1 "2" 250
        = (.error (.typeError m), [])) ∧
    (∃ m, simulate_api_post (.str "/u") (.num "3") .null false 500 (1/10 : Rat) 1 "2" 250
        = (.error (.typeError m), [])) :=
  C5_mapping_validation "/u" (.num "3") .null false 500 (1/10) 1 "2" 250 (by decide)
    (Or.inl ⟨rfl, rfl⟩)

/-- Claim C6: on the non-error path the payload bundles the generated
request identifier, the supplied URL, the supplied mappings (defaulted to
empty when omitted, `params or {}`), and the capture timestamp; the
response headers are exactly `Content-Type: application/json`; the status
draw bounds carry over to `status_code`; and the POST payload stores the
mapping under `"body"`. -/
theorem C6_success_payload (url : String) (params headers : Json) (es : Int)
    (delay : Rat) (reqId : Nat) (timeLit : String) (st : Nat)
    (hu : ¬((pyStrip url).data.isEmpty = true))
    (hp : (isNone params || isDict params) = true)
    (hh : (isNone headers || isDict headers) = true)
    (hst : 200 ≤ st ∧ st ≤ 299) :
    ∃ rg rp,
      (simulate_api_get (.str url) params headers false es delay reqId timeLit st).1
        = .ok rg ∧
      (simulate_api_post (.str url) params headers false es delay reqId timeLit st).1
        = .ok rp ∧
      200 ≤ rg.status_code ∧ rg.status_code ≤ 299 ∧
      rg.headers = [("Content-Type", "application/json")] ∧
      rp.headers = [("Content-Type", "application/json")] ∧
      getItem rg.json_data "request_id"
        = some (.str ("req-" ++ String.mk (natChars reqId))) ∧
      getItem rg.json_data "url" = some (.str url) ∧
      getItem rg.json_data "params" = some (pyOr params (.obj [])) ∧
      getItem rg.json_data "headers" = some (pyOr headers (.obj [])) ∧
      getItem rg.json_data "time" = some (.num timeLit) ∧
      getItem rp.json_data "body" = some (pyOr params (.obj [])) ∧
      (params = .null → getItem rg.json_data "params" = some (.obj [])) := by
  refine ⟨generate_fake_response url params headers reqId timeLit st,
    generate_fake_post_response url params headers reqId timeLit st,
    ?_, ?_, ?_, ?_, rfl, rfl, rfl, rfl, rfl, rfl, rfl, rfl, ?_⟩
  · rw [simulate_api_get_success url params headers es delay reqId timeLit st hu hp hh]
  · rw [simulate_api_post_success url params headers es delay reqId timeLit st hu hp hh]
  · show (200 : Int) ≤ (st : Nat)
    exact_mod_cast hst.1
  · show ((st : Nat) : Int) ≤ 299
    exact_mod_cast hst.2
  · intro hp0
    subst hp0
    rfl

/-- Claim C6, witness: `simulate_api_get("/users")` with `params = None`
yields `payload["url"] == "/users"` and `payload["params"] == {}`. -/
theorem C6_witness :
    ∃ rg rp,
      (simulate_api_get (.str "/users") .null .null false 500 (1/10 : Rat) 1 "2" 250).1
        = .ok rg ∧
      (simulate_api_post (.str "/users") .null .null false 500 (1/10 : Rat) 1 "2" 250).1
        = .ok rp ∧
      200 ≤ rg.status_code ∧ rg.status_code ≤ 299 ∧
      rg.headers = [("Content-Type", "application/json")] ∧
      rp.headers = [("Content-Type", "application/json")] ∧
      getItem rg.json_data "request_id"
        = some (.str ("req-" ++ String.mk (natChars 1))) ∧
      getItem rg.json_data "url" = some (.str "/users") ∧
      getItem rg.json_data "params" = some (pyOr .null (.obj [])) ∧
      getItem rg.json_data "headers" = some (pyOr .null (.obj [])) ∧
      getItem rg.json_data "time" = some (.num "2") ∧
      getItem rp.json_data "body" = some (pyOr .null (.obj [])) ∧
      (Json.null = .null → getItem rg.json_data "params" = some (.obj [])) :=
  C6_success_payload "/users" .null .null 500 (1/10) 1 "2" 250 (by decide) (by decide)
    (by decide) (by decide)

/-- Claim C8: `simulate_api_post` behaves like `simulate_api_get` on the
same inputs and draws: the effect traces agree, and the results agree up
to renaming the success payload key `"params"` to `"body"` — except that
the wrong-mapping `TypeError` names the argument (`params` vs `data`),
which is the one place the two error messages differ. -/
theorem C8_get_post_equiv (url arg headers : Json) (se : Bool) (es : Int)
    (delay : Rat) (reqId : Nat) (timeLit : String) (st : Nat) :
    (simulate_api_post url arg headers se es delay reqId timeLit st).2
      = (simulate_api_get url arg headers se es delay reqId timeLit st).2 ∧
    ((simulate_api_post url arg headers se es delay reqId timeLit st).1
        = Except.map renameResponse
            (simulate_api_get url arg headers se es delay reqId timeLit st).1 ∨
      ((simulate_api_get url arg headers se es delay reqId timeLit st).1
          = .error (.typeError "params must be a dictionary or None.") ∧
        (simulate_api_post url arg headers se es delay reqId timeLit st).1
          = .error (.typeError "data must be a dictionary or None."))) := by
  cases url with
  | null => exact ⟨rfl, Or.inl rfl⟩
  | bool b => exact ⟨rfl, Or.inl rfl⟩
  | num lit => exact ⟨rfl, Or.inl rfl⟩
  | arr vs => exact ⟨rfl, Or.inl rfl⟩
  | obj ms => exact ⟨rfl, Or.inl rfl⟩
  | str s =>
    by_cases h1 : (pyStrip s).data.isEmpty = true
    · rw [simulate_api_get_badurl (.str s) arg headers se es delay reqId timeLit st
          (Or.inl ⟨s, rfl, h1⟩),
        simulate_api_post_badurl (.str s) arg headers se es delay reqId timeLit st
          (Or.inl ⟨s, rfl, h1⟩)]
      exact ⟨rfl, Or.inl rfl⟩
    · by_cases h2 : isNone arg = false ∧ isDict arg = false
      · rw [simulate_api_get_badparams s arg headers se es delay reqId timeLit st h1
            h2.1 h2.2,
          simulate_api_post_baddata s arg headers se es delay reqId timeLit st h1
            h2.1 h2.2]
        exact ⟨rfl, Or.inr ⟨rfl, rfl⟩⟩
      · have harg := wt_of_not_bad arg h2
        by_cases h3 : isNone headers = false ∧ isDict headers = false
        · rw [simulate_api_get_badheaders s arg headers se es delay reqId timeLit st h1
              harg h3.1 h3.2,
            simulate_api_post_badheaders s arg headers se es delay reqId timeLit st h1
              harg h3.1 h3.2]
          exact ⟨rfl, Or.inl rfl⟩
        · have hhead := wt_of_not_bad headers h3
          cases se with
          | true =>
            rw [simulate_api_get_error s arg headers es delay reqId timeLit st h1
                harg hhead,
              simulate_api_post_error s arg headers es delay reqId timeLit st h1
                harg hhead]
            exact ⟨rfl, Or.inl rfl⟩
          | false =>
            rw [simulate_api_get_success s arg headers es delay reqId timeLit st h1
                harg hhead,
              simulate_api_post_success s arg headers es delay reqId timeLit st h1
                harg hhead]
            exact ⟨rfl, Or.inl rfl⟩

/-- Claim C9: a non-empty url consisting only of whitespace is rejected by
both functions with the same `ValueError` as the empty string, before the
delay. -/
theorem C9_whitespace_url (s : String) (params headers : Json) (se : Bool) (es : Int)
    (delay : Rat) (reqId : Nat) (timeLit : String) (st : Nat)
    (_hne : s.data ≠ []) (hws : s.data.all pyIsSpace = true) :
    simulate_api_get (.str s) params headers se es delay reqId timeLit st
      = (.error (.valueError urlErrMsg), []) ∧
    simulate_api_post (.str s) params headers se es delay reqId timeLit st
      = (.error (.valueError urlErrMsg), []) := by
  have h2 : (∃ t, Json.str s = .str t ∧ (pyStrip t).data.isEmpty = true) ∨
      isStr (.str s) = false :=
    Or.inl ⟨s, rfl, pyStrip_all_space s hws⟩
  exact ⟨simulate_api_get_badurl (.str s) params headers se es delay reqId timeLit st h2,
    simulate_api_post_badurl (.str s) params headers se es delay reqId timeLit st h2⟩

/-- Claim C9, witness: the three-space url `"   "`. -/
theorem C9_witness :
    simulate_api_get (.str "   ") .null .null false 500 (1/10 : Rat) 1 "2" 250
      = (.error (.valueError urlErrMsg), []) ∧
    simulate_api_post (.str "   ") .null .null false 500 (1/10 : Rat) 1 "2" 250
      = (.error (.valueError urlErrMsg), []) :=
  C9_whitespace_url "   " .null .null false 500 (1/10) 1 "2" 250 (by decide) (by decide)

/-- Claim C10: with `simulate_error = true` the returned response is the
same fixed function of `error_status` alone — two calls with different
urls, mappings, headers, delays, request-id, time, and status draws return
equal responses, and the headers are the fixed JSON content type even on
the error branch. -/
theorem C10_error_by_status_only (u1 u2 : String) (p1 h1 p2 h2 : Json) (es : Int)
    (d1 d2 : Rat) (r1 r2 : Nat) (t1 t2 : String) (s1 s2 : Nat)
    (hu1 : ¬((pyStrip u1).data.isEmpty = true))
    (hp1 : (isNone p1 || isDict p1) = true)
    (hh1 : (isNone h1 || isDict h1) = true)
    (hu2 : ¬((pyStrip u2).data.isEmpty = true))
    (hp2 : (isNone p2 || isDict p2) = true)
    (hh2 : (isNone h2 || isDict h2) = true) :
    (simulate_api_get (.str u1) p1 h1 true es d1 r1 t1 s1).1
      = (simulate_api_get (.str u2) p2 h2 true es d2 r2 t2 s2).1 ∧
    (simulate_api_post (.str u1) p1 h1 true es d1 r1 t1 s1).1
      = (simulate_api_get (.str u2) p2 h2 true es d2 r2 t2 s2).1 ∧
    (simulate_api_get (.str u1) p1 h1 true es d1 r1 t1 s1).1 = .ok (error_response es) ∧
    (error_response es).headers = [("Content-Type", "application/json")] := by
  have e1 := simulate_api_get_error u1 p1 h1 es d1 r1 t1 s1 hu1 hp1 hh1
  have e2 := simulate_api_get_error u2 p2 h2 es d2 r2 t2 s2 hu2 hp2 hh2
  have e3 := simulate_api_post_error u1 p1 h1 es d1 r1 t1 s1 hu1 hp1 hh1
  rw [e1, e2, e3]
  exact ⟨rfl, rfl, rfl, rfl⟩

/-- Claim C10, witness: two calls differing in every input except
`error_status = 418` return the same error response. -/
theorem C10_witness :
    (simulate_api_get (.str "/a") .null .null true 418 (1/10 : Rat) 1 "2" 250).1
      = (simulate_api_get (.str "/b") (.obj [("x", .str "y")])
          (.obj [("k", .str "v")]) true 418 (3/20 : Rat) 9 "7" 299).1 ∧
    (simulate_api_post (.str "/a") .null .null true 418 (1/10 : Rat) 1 "2" 250).1
      = (simulate_api_get (.str "/b") (.obj [("x", .str "y")])
          (.obj [("k", .str "v")]) true 418 (3/20 : Rat) 9 "7" 299).1 ∧
    (simulate_api_get (.str "/a") .null .null true 418 (1/10 : Rat) 1 "2" 250).1
      = .ok (error_response 418) ∧
    (error_response 418).headers = [("Content-Type", "application/json")] :=
  C10_error_by_status_only "/a" "/b" .null .null (.obj [("x", .str "y")])
    (.obj [("k", .str "v")]) 418 (1/10) (3/20) 1 9 "2" "7" 250 299
    (by decide) (by decide) (by decide) (by decide) (by decide) (by decide)

end MockApi
